import Mathlib

/-!
Shallow embedding of the clubspace membership and attendance engine.

The definitions below are translated from the club service
(`createClub`, `joinClub`, `leaveClub`, `removeMember`, `updateMemberRole`,
`updateClub`, `deleteClub`, `getUserClubRole`) and the event service
(`updateRSVP`, `updateEventAttendeeCount`, `getEventRSVPs`, `getUserRSVP`,
`getRSVPSummary`) together with the type declarations they use.

Modelling conventions:
* The Firestore database is a record of document lists, one list per
  collection.  Documents in `clubs`, `clubMembers`, `clubStats` and `events`
  are keyed by their document id (`clubId`, `clubId_uid`, `clubId`,
  `eventId`); `rsvps` documents have auto-generated ids, so creation always
  appends a new document.
* `batch.set` on a keyed collection replaces the document with the same key
  if it exists and appends otherwise.  `batch.update` (and `updateDoc`)
  fails when the target document is absent; because a write batch is
  all-or-nothing, a failing update makes the whole operation fail with no
  document written.  Reads issued before `batch.commit` observe the state
  from before the batch (pending batch writes are not visible to queries).
* `Date` values and `serverTimestamp()` are both modelled by a `Nat`
  argument `now` supplied to each operation.
* Errors: each distinct `throw new Error(...)` site becomes a constructor
  of `ServiceError`.  Where the source wraps its body in
  `try ... catch { throw new Error('Failed to ...') }`, the unwrapped body
  is modelled as `...Try` and the exported function masks the error kind,
  exactly as the `catch` block does.  `removeMember` and `updateClub`
  rethrow the original error, so they are not masked.
* The authentication-provider checks at the top of `createClub`
  (signed-in user, verified e-mail, token refresh) belong to the external
  identity provider and are outside the model; the field validation and the
  write batch are modelled faithfully.
-/

namespace ClubSpace

/-- Club lifecycle status, from `Club.status` in `types/club.ts`. -/
inductive ClubStatus where
  | active
  | inactive
  | archived
deriving DecidableEq, Repr

/-- Club member role, from `ClubRole` in `types/club.ts`. -/
inductive ClubRole where
  | owner
  | organizer
  | member
  | guest
deriving DecidableEq, Repr

/-- Club member status, from `ClubMember.status` in `types/club.ts`. -/
inductive MemberStatus where
  | active
  | inactive
  | banned
deriving DecidableEq, Repr

/-- RSVP status, from `RSVP.status` in `types/event.ts`. -/
inductive RSVPStatus where
  | going
  | not_going
deriving DecidableEq, Repr

/-- Event lifecycle status, from `Event.status` in `types/event.ts`. -/
inductive EventStatus where
  | active
  | cancelled
  | completed
deriving DecidableEq, Repr

/-- Default event visibility, from `ClubSettings.defaultEventVisibility`. -/
inductive EventVisibility where
  | everyone
  | membersOnly
  | organizersOnly
deriving DecidableEq, Repr

/-- Club settings bag, from `ClubSettings` in `types/club.ts`. -/
structure ClubSettings where
  allowMemberInvites : Bool
  allowPublicEvents : Bool
  defaultEventVisibility : EventVisibility
  allowMemberPosts : Bool
  autoDeleteInactiveMembers : Bool
  inactivityThresholdDays : Nat
deriving DecidableEq, Repr

/-- Per-member permission set, from `ClubPermissions` in `types/club.ts`. -/
structure ClubPermissions where
  canCreateEvents : Bool
  canEditClub : Bool
  canManageMembers : Bool
  canDeletePosts : Bool
  canSendAnnouncements : Bool
  canAccessFinances : Bool
deriving DecidableEq, Repr

/-- `DEFAULT_CLUB_SETTINGS` from `types/club.ts`. -/
def DEFAULT_CLUB_SETTINGS : ClubSettings :=
  { allowMemberInvites := true
    allowPublicEvents := true
    defaultEventVisibility := .membersOnly
    allowMemberPosts := true
    autoDeleteInactiveMembers := false
    inactivityThresholdDays := 180 }

/-- `DEFAULT_PERMISSIONS` from `types/club.ts`, as a function of the role. -/
def DEFAULT_PERMISSIONS : ClubRole → ClubPermissions
  | .owner =>
    { canCreateEvents := true, canEditClub := true, canManageMembers := true
      canDeletePosts := true, canSendAnnouncements := true, canAccessFinances := true }
  | .organizer =>
    { canCreateEvents := true, canEditClub := false, canManageMembers := true
      canDeletePosts := true, canSendAnnouncements := true, canAccessFinances := false }
  | .member =>
    { canCreateEvents := false, canEditClub := false, canManageMembers := false
      canDeletePosts := false, canSendAnnouncements := false, canAccessFinances := false }
  | .guest =>
    { canCreateEvents := false, canEditClub := false, canManageMembers := false
      canDeletePosts := false, canSendAnnouncements := false, canAccessFinances := false }

/-- A `clubs` document, from `Club` in `types/club.ts`. -/
structure Club where
  clubId : String
  clubName : String
  description : String
  ownerUid : String
  createdAt : Nat
  updatedAt : Nat
  status : ClubStatus
  settings : ClubSettings
  memberCount : Int
  maxMembers : Option Int
  tags : List String
  isPublic : Bool
  inviteCode : Option String
deriving DecidableEq, Repr

/-- A `clubMembers` document, from `ClubMember` in `types/club.ts`.
In Firestore its document id is the string `clubId_uid`, so the pair
`(clubId, uid)` is the document key. -/
structure ClubMember where
  clubId : String
  uid : String
  role : ClubRole
  joinedAt : Nat
  status : MemberStatus
  lastActivityAt : Nat
  permissions : ClubPermissions
deriving DecidableEq, Repr

/-- A `clubStats` document, from `ClubStats` in `types/club.ts`. -/
structure ClubStats where
  clubId : String
  totalMembers : Int
  activeMembers : Int
  totalEvents : Int
  upcomingEvents : Int
  totalPosts : Int
  lastActivityAt : Nat
  updatedAt : Nat
deriving DecidableEq, Repr

/-- An `events` document, from `Event` in `types/event.ts`. -/
structure Event where
  eventId : String
  clubId : String
  title : String
  description : String
  dateTime : Nat
  location : String
  creatorUid : String
  maxAttendees : Option Int
  currentAttendees : Int
  createdAt : Nat
  updatedAt : Nat
  status : EventStatus
deriving DecidableEq, Repr

/-- An `rsvps` document, from `RSVP` in `types/event.ts`.  Its Firestore
document id is auto-generated, so it is not part of the model. -/
structure RSVP where
  eventId : String
  uid : String
  status : RSVPStatus
  createdAt : Nat
  updatedAt : Nat
deriving DecidableEq, Repr

/-- Result of `getRSVPSummary`, from `RSVPSummary` in `types/event.ts`. -/
structure RSVPSummary where
  going : Nat
  not_going : Nat
  total : Nat
deriving DecidableEq, Repr

/-- The whole Firestore state: one document list per collection. -/
structure DB where
  clubs : List Club
  clubMembers : List ClubMember
  clubStats : List ClubStats
  events : List Event
  rsvps : List RSVP
deriving DecidableEq, Repr

/-- One `ServiceError` constructor per distinct `throw new Error(...)` site
in the club and event services.  `updateFailed` stands for the Firestore
error raised by `updateDoc`/`batch.update` on a missing document. -/
inductive ServiceError where
  | validationFailed
  | clubNotFound
  | clubIsFull
  | membershipNotFound
  | ownerCannotLeave
  | insufficientPermissions
  | cannotRemoveOwner
  | cannotRemoveSelf
  | memberNotFound
  | updateFailed
  | failedToJoinClub
  | failedToLeaveClub
  | failedToUpdateRole
  | failedToDeleteClub
deriving DecidableEq, Repr

/-- JavaScript `String.prototype.trim()`: strip leading and trailing
whitespace.  (Defined by structural recursion over the character list so
that it evaluates by kernel reduction.) -/
def trimString (s : String) : String :=
  ⟨((s.data.dropWhile Char.isWhitespace).reverse.dropWhile Char.isWhitespace).reverse⟩

/-- Replace the first element satisfying `p` by `f` applied to it; identity
when no element matches.  This is Firestore's `update` on the (unique)
document matching `p`. -/
def updateFirst (p : α → Bool) (f : α → α) : List α → List α
  | [] => []
  | x :: xs => if p x then f x :: xs else x :: updateFirst p f xs

/-- Firestore `set` on a keyed collection: replace the document whose key
matches `p` when it exists, append the new document otherwise. -/
def setDoc (p : α → Bool) (v : α) (l : List α) : List α :=
  if l.any p then updateFirst p (fun _ => v) l else l ++ [v]

/-- Firestore `delete`: remove the (unique) document matching `p`. -/
def eraseFirst (p : α → Bool) : List α → List α
  | [] => []
  | x :: xs => if p x then xs else x :: eraseFirst p xs

/-- The `try/catch` wrappers in `joinClub`, `leaveClub`, `updateMemberRole`
and `deleteClub` replace whatever error was thrown by one fixed error. -/
def maskError (e : ServiceError) : Except ServiceError α → Except ServiceError α
  | .ok a => .ok a
  | .error _ => .error e

/-- Key predicate for a `clubs` document. -/
def isClubDoc (clubId : String) (c : Club) : Bool :=
  c.clubId == clubId

/-- Key predicate for a `clubMembers` document (Firestore id `clubId_uid`). -/
def isMemberDoc (clubId uid : String) (m : ClubMember) : Bool :=
  m.clubId == clubId && m.uid == uid

/-- Key predicate for a `clubStats` document. -/
def isStatsDoc (clubId : String) (s : ClubStats) : Bool :=
  s.clubId == clubId

/-- Key predicate for an `events` document. -/
def isEventDoc (eventId : String) (e : Event) : Bool :=
  e.eventId == eventId

/-- `getClub` from the club service: point read of the club document. -/
def getClub (db : DB) (clubId : String) : Option Club :=
  db.clubs.find? (isClubDoc clubId)

/-- Point read of the `clubMembers` document with id `clubId_uid`. -/
def getMember (db : DB) (clubId uid : String) : Option ClubMember :=
  db.clubMembers.find? (isMemberDoc clubId uid)

/-- Point read of the `clubStats` document. -/
def getStats (db : DB) (clubId : String) : Option ClubStats :=
  db.clubStats.find? (isStatsDoc clubId)

/-- Point read of the `events` document, as in `getEventById`. -/
def getEvent (db : DB) (eventId : String) : Option Event :=
  db.events.find? (isEventDoc eventId)

/-- `getUserClubRole` from the club service: the member's role, or `none`
when there is no membership document. -/
def getUserClubRole (db : DB) (clubId uid : String) : Option ClubRole :=
  (getMember db clubId uid).map ClubMember.role

/-- The capacity check of `joinClub`:
`club.maxMembers && club.memberCount >= club.maxMembers`.
A `maxMembers` of `0` is falsy in JavaScript, so it imposes no cap. -/
def clubIsFull (club : Club) : Bool :=
  match club.maxMembers with
  | none => false
  | some n => decide (n ≠ 0 ∧ n ≤ club.memberCount)

/-- `CreateClubData` from `types/club.ts`; `settings` keys are optional. -/
structure SettingsPatch where
  allowMemberInvites : Option Bool := none
  allowPublicEvents : Option Bool := none
  defaultEventVisibility : Option EventVisibility := none
  allowMemberPosts : Option Bool := none
  autoDeleteInactiveMembers : Option Bool := none
  inactivityThresholdDays : Option Nat := none
deriving DecidableEq, Repr

/-- The JavaScript spread `{ ...DEFAULT_CLUB_SETTINGS, ...clubData.settings }`:
keys present in the patch override the defaults. -/
def mergeSettings (base : ClubSettings) (p : SettingsPatch) : ClubSettings :=
  { allowMemberInvites := p.allowMemberInvites.getD base.allowMemberInvites
    allowPublicEvents := p.allowPublicEvents.getD base.allowPublicEvents
    defaultEventVisibility := p.defaultEventVisibility.getD base.defaultEventVisibility
    allowMemberPosts := p.allowMemberPosts.getD base.allowMemberPosts
    autoDeleteInactiveMembers := p.autoDeleteInactiveMembers.getD base.autoDeleteInactiveMembers
    inactivityThresholdDays := p.inactivityThresholdDays.getD base.inactivityThresholdDays }

/-- `CreateClubData` from `types/club.ts`. -/
structure CreateClubData where
  clubName : String
  description : String
  isPublic : Bool
  maxMembers : Option Int := none
  tags : List String := []
  settings : SettingsPatch := {}
deriving DecidableEq, Repr

/-- `createClub` from the club service.  The generated club id is passed in
(`generateClubId` draws on the clock and a random suffix).  After the field
validation, one write batch sets the club document (`memberCount = 1`), the
owner's membership document (role `owner`, owner permissions) and the stats
document (`totalMembers = activeMembers = 1`).  `batch.set` cannot fail on a
fresh id, so the batch commits. -/
def createClub (db : DB) (ownerUid : String) (clubData : CreateClubData)
    (clubId : String) (now : Nat) : Except ServiceError (DB × Club) :=
  if trimString clubData.clubName == "" then .error .validationFailed
  else if trimString clubData.description == "" then .error .validationFailed
  else
    let club : Club :=
      { clubId := clubId
        clubName := trimString clubData.clubName
        description := trimString clubData.description
        ownerUid := ownerUid
        createdAt := now
        updatedAt := now
        status := .active
        settings := mergeSettings DEFAULT_CLUB_SETTINGS clubData.settings
        memberCount := 1
        maxMembers := clubData.maxMembers
        tags := clubData.tags
        isPublic := clubData.isPublic
        inviteCode := none }
    let clubMember : ClubMember :=
      { clubId := clubId
        uid := ownerUid
        role := .owner
        joinedAt := now
        status := .active
        lastActivityAt := now
        permissions := DEFAULT_PERMISSIONS .owner }
    let clubStats : ClubStats :=
      { clubId := clubId
        totalMembers := 1
        activeMembers := 1
        totalEvents := 0
        upcomingEvents := 0
        totalPosts := 0
        lastActivityAt := now
        updatedAt := now }
    .ok
      ({ db with
          clubs := setDoc (isClubDoc clubId) club db.clubs
          clubMembers := setDoc (isMemberDoc clubId ownerUid) clubMember db.clubMembers
          clubStats := setDoc (isStatsDoc clubId) clubStats db.clubStats }
      , club)

/-- The body of `joinClub` (inside its `try`).  No check for an existing
membership is performed: `batch.set` on the id `clubId_uid` replaces any
existing membership document, while the club and stats counters are
incremented unconditionally.  The two `batch.update` calls fail when their
target document is missing, in which case nothing is written. -/
def joinClubTry (db : DB) (clubId uid : String) (role : ClubRole) (now : Nat) :
    Except ServiceError DB :=
  match getClub db clubId with
  | none => .error .clubNotFound
  | some club =>
    if clubIsFull club then .error .clubIsFull
    else
      let clubMember : ClubMember :=
        { clubId := clubId
          uid := uid
          role := role
          joinedAt := now
          status := .active
          lastActivityAt := now
          permissions := DEFAULT_PERMISSIONS role }
      if db.clubs.any (isClubDoc clubId) && db.clubStats.any (isStatsDoc clubId) then
        .ok
          { db with
              clubMembers := setDoc (isMemberDoc clubId uid) clubMember db.clubMembers
              clubs := updateFirst (isClubDoc clubId)
                (fun c => { c with memberCount := c.memberCount + 1, updatedAt := now })
                db.clubs
              clubStats := updateFirst (isStatsDoc clubId)
                (fun s => { s with
                    totalMembers := s.totalMembers + 1
                    activeMembers := s.activeMembers + 1
                    lastActivityAt := now
                    updatedAt := now })
                db.clubStats }
      else .error .updateFailed

/-- `joinClub` from the club service: its `catch` block rethrows every
failure as the one error `Failed to join club`. -/
def joinClub (db : DB) (clubId uid : String) (role : ClubRole) (now : Nat) :
    Except ServiceError DB :=
  maskError .failedToJoinClub (joinClubTry db clubId uid role now)

/-- The body of `leaveClub` (inside its `try`): require a membership
document, refuse the `owner` role, then delete the membership and decrement
the club and stats counters in one batch. -/
def leaveClubTry (db : DB) (clubId uid : String) (now : Nat) :
    Except ServiceError DB :=
  match getMember db clubId uid with
  | none => .error .membershipNotFound
  | some memberData =>
    if memberData.role = .owner then .error .ownerCannotLeave
    else
      if db.clubs.any (isClubDoc clubId) && db.clubStats.any (isStatsDoc clubId) then
        .ok
          { db with
              clubMembers := eraseFirst (isMemberDoc clubId uid) db.clubMembers
              clubs := updateFirst (isClubDoc clubId)
                (fun c => { c with memberCount := c.memberCount - 1, updatedAt := now })
                db.clubs
              clubStats := updateFirst (isStatsDoc clubId)
                (fun s => { s with
                    totalMembers := s.totalMembers - 1
                    activeMembers := s.activeMembers - 1
                    lastActivityAt := now
                    updatedAt := now })
                db.clubStats }
      else .error .updateFailed

/-- `leaveClub` from the club service: its `catch` block rethrows every
failure as the one error `Failed to leave club`. -/
def leaveClub (db : DB) (clubId uid : String) (now : Nat) :
    Except ServiceError DB :=
  maskError .failedToLeaveClub (leaveClubTry db clubId uid now)

/-- The body of `updateMemberRole` (inside its `try`): a single
`updateDoc` rewriting `role`, `permissions` and `lastActivityAt` of the
membership document.  No permission check of any kind is performed; the
caller's identity is not even a parameter. -/
def updateMemberRoleTry (db : DB) (clubId uid : String) (newRole : ClubRole)
    (now : Nat) : Except ServiceError DB :=
  if db.clubMembers.any (isMemberDoc clubId uid) then
    .ok
      { db with
          clubMembers := updateFirst (isMemberDoc clubId uid)
            (fun m => { m with
                role := newRole
                permissions := DEFAULT_PERMISSIONS newRole
                lastActivityAt := now })
            db.clubMembers }
  else .error .updateFailed

/-- `updateMemberRole` from the club service: its `catch` block rethrows
every failure as `Failed to update member role`. -/
def updateMemberRole (db : DB) (clubId uid : String) (newRole : ClubRole)
    (now : Nat) : Except ServiceError DB :=
  maskError .failedToUpdateRole (updateMemberRoleTry db clubId uid newRole now)

/-- `removeMember` from the club service.  Checks, in source order: the
acting member's role is `owner` or `organizer`; the target's role is not
`owner`; the target is not the actor; the target's membership document
exists.  Then one batch deletes the membership and decrements the club and
stats counters.  The `catch` block rethrows the original error, so the
error kinds are visible to the caller. -/
def removeMember (db : DB) (clubId memberUid adminUid : String) (now : Nat) :
    Except ServiceError DB :=
  let adminRole := getUserClubRole db clubId adminUid
  if ¬ (adminRole = some .owner ∨ adminRole = some .organizer) then
    .error .insufficientPermissions
  else
    let memberRole := getUserClubRole db clubId memberUid
    if memberRole = some .owner then .error .cannotRemoveOwner
    else if memberUid == adminUid then .error .cannotRemoveSelf
    else
      match getMember db clubId memberUid with
      | none => .error .memberNotFound
      | some _ =>
        if db.clubs.any (isClubDoc clubId) && db.clubStats.any (isStatsDoc clubId) then
          .ok
            { db with
                clubMembers := eraseFirst (isMemberDoc clubId memberUid) db.clubMembers
                clubs := updateFirst (isClubDoc clubId)
                  (fun c => { c with memberCount := c.memberCount - 1, updatedAt := now })
                  db.clubs
                clubStats := updateFirst (isStatsDoc clubId)
                  (fun s => { s with
                      totalMembers := s.totalMembers - 1
                      activeMembers := s.activeMembers - 1
                      lastActivityAt := now
                      updatedAt := now })
                  db.clubStats }
        else .error .updateFailed

/-- `UpdateClubData` from `types/club.ts`:
`Partial` of the club fields other than `clubId`, `ownerUid`, `createdAt`
and `memberCount`.  An absent key is `none`; `undefined` values are
stripped before the write, which is the same thing. -/
structure UpdateClubData where
  clubName : Option String := none
  description : Option String := none
  updatedAt : Option Nat := none
  status : Option ClubStatus := none
  settings : Option ClubSettings := none
  maxMembers : Option Int := none
  tags : Option (List String) := none
  isPublic : Option Bool := none
  inviteCode : Option String := none
deriving DecidableEq, Repr

/-- The field rewrite performed by `updateClub`'s `updateDoc`: present keys
override, and `updatedAt` is always overwritten by `serverTimestamp()`. -/
def applyClubUpdate (c : Club) (u : UpdateClubData) (now : Nat) : Club :=
  { c with
      clubName := u.clubName.getD c.clubName
      description := u.description.getD c.description
      status := u.status.getD c.status
      settings := u.settings.getD c.settings
      maxMembers := match u.maxMembers with | some v => some v | none => c.maxMembers
      tags := u.tags.getD c.tags
      isPublic := u.isPublic.getD c.isPublic
      inviteCode := match u.inviteCode with | some v => some v | none => c.inviteCode
      updatedAt := now }

/-- `updateClub` from the club service: one `updateDoc` on the club
document; the original error is rethrown unmasked. -/
def updateClub (db : DB) (clubId : String) (updates : UpdateClubData)
    (now : Nat) : Except ServiceError DB :=
  if db.clubs.any (isClubDoc clubId) then
    .ok
      { db with
          clubs := updateFirst (isClubDoc clubId)
            (fun c => applyClubUpdate c updates now) db.clubs }
  else .error .updateFailed

/-- `deleteClub` from the club service: a soft delete via
`updateClub(clubId, { status: 'archived', updatedAt: new Date() })`; its
`catch` rethrows every failure as `Failed to delete club`. -/
def deleteClub (db : DB) (clubId : String) (now : Nat) :
    Except ServiceError DB :=
  maskError .failedToDeleteClub
    (updateClub db clubId { status := some .archived, updatedAt := some now } now)

/-- Insert one RSVP into a list kept in descending `createdAt` order;
models one step of the JavaScript `sort((a, b) => b.createdAt - a.createdAt)`. -/
def insertByCreatedDesc (x : RSVP) : List RSVP → List RSVP
  | [] => [x]
  | y :: ys =>
    if y.createdAt ≤ x.createdAt then x :: y :: ys else y :: insertByCreatedDesc x ys

/-- Sort RSVPs by `createdAt` in descending order (newest first). -/
def sortByCreatedDesc : List RSVP → List RSVP
  | [] => []
  | x :: xs => insertByCreatedDesc x (sortByCreatedDesc xs)

/-- `getEventRSVPs` from the event service: the query
`where('eventId', '==', eventId)` followed by the descending `createdAt`
sort done in JavaScript. -/
def getEventRSVPs (db : DB) (eventId : String) : List RSVP :=
  sortByCreatedDesc (db.rsvps.filter (fun r => r.eventId == eventId))

/-- `getUserRSVP` from the event service: the first document of the event
query whose `uid` matches. -/
def getUserRSVP (db : DB) (eventId uid : String) : Option RSVP :=
  (db.rsvps.filter (fun r => r.eventId == eventId)).find? (fun r => r.uid == uid)

/-- `getRSVPSummary` from the event service: counts of `going`, `not_going`
and all responses over `getEventRSVPs`. -/
def getRSVPSummary (db : DB) (eventId : String) : RSVPSummary :=
  let rsvps := getEventRSVPs db eventId
  { going := (rsvps.filter (fun r => r.status == RSVPStatus.going)).length
    not_going := (rsvps.filter (fun r => r.status == RSVPStatus.not_going)).length
    total := rsvps.length }

/-- The value written by `updateEventAttendeeCount`: the number of `going`
documents among `getEventRSVPs` of the database it reads.  Inside
`updateRSVP` this read happens before the batch commits, so it sees the
RSVP set from before the current upsert. -/
def attendeeCountValue (db : DB) (eventId : String) : Nat :=
  ((getEventRSVPs db eventId).filter (fun r => r.status == RSVPStatus.going)).length

/-- The `validateRSVPData` check used by `updateRSVP`: `eventId` and `uid`
must be non-empty after trimming (the status is statically one of the two
enum values). -/
def validRSVPInput (eventId uid : String) : Bool :=
  !(trimString eventId == "") && !(trimString uid == "")

/-- The upsert performed by `updateRSVP`'s batch on the `rsvps`
collection: if the committed event query contains a document with this
`uid`, its `status`/`updatedAt` are rewritten in place, otherwise a fresh
auto-id document is appended. -/
def upsertRSVP (l : List RSVP) (eventId uid : String) (status : RSVPStatus)
    (now : Nat) : List RSVP :=
  match (l.filter (fun r => r.eventId == eventId)).filter (fun r => r.uid == uid) with
  | [] =>
    l ++ [{ eventId := eventId, uid := uid, status := status
            createdAt := now, updatedAt := now }]
  | _ :: _ =>
    updateFirst (fun r => r.eventId == eventId && r.uid == uid)
      (fun r => { r with status := status, updatedAt := now }) l

/-- `updateRSVP` from the event service.  After validation it queries the
committed RSVP documents of the event; if one with this `uid` exists the
batch updates its `status`/`updatedAt` (an upsert keyed by
`(eventId, uid)`), otherwise the batch creates a fresh auto-id document.
`updateEventAttendeeCount(eventId, batch)` then queries the RSVP set again
— still the committed, pre-batch set — counts its `going` documents, and
adds an update of `Event.currentAttendees` to that count to the same batch.
The batch commits atomically; it fails if the event document is missing. -/
def updateRSVP (db : DB) (eventId uid : String) (status : RSVPStatus)
    (now : Nat) : Except ServiceError (DB × RSVP) :=
  if !validRSVPInput eventId uid then .error .validationFailed
  else
    let allEventRSVPs := db.rsvps.filter (fun r => r.eventId == eventId)
    let existing := allEventRSVPs.filter (fun r => r.uid == uid)
    let rsvp : RSVP :=
      match existing with
      | [] => { eventId := eventId, uid := uid, status := status, createdAt := now, updatedAt := now }
      | e :: _ => { eventId := eventId, uid := uid, status := status, createdAt := e.createdAt, updatedAt := now }
    if db.events.any (isEventDoc eventId) then
      .ok
        ({ db with
            rsvps := upsertRSVP db.rsvps eventId uid status now
            events := updateFirst (isEventDoc eventId)
              (fun e => { e with
                  currentAttendees := (attendeeCountValue db eventId : Int)
                  updatedAt := now })
              db.events }
        , rsvp)
    else .error .updateFailed

/-- One membership-ledger call, for reasoning about sequences of
operations.  Each constructor carries the arguments of the corresponding
service function (with the generated club id and the clock passed in). -/
inductive Op where
  | create (ownerUid : String) (clubData : CreateClubData) (clubId : String) (now : Nat)
  | join (clubId uid : String) (role : ClubRole) (now : Nat)
  | leave (clubId uid : String) (now : Nat)
  | remove (clubId memberUid adminUid : String) (now : Nat)
deriving Repr

/-- Run one membership operation; a failed call writes nothing, so the
database is returned unchanged. -/
def applyOp (db : DB) : Op → DB
  | .create ownerUid clubData clubId now =>
    match createClub db ownerUid clubData clubId now with
    | .ok (db', _) => db'
    | .error _ => db
  | .join clubId uid role now =>
    match joinClub db clubId uid role now with
    | .ok db' => db'
    | .error _ => db
  | .leave clubId uid now =>
    match leaveClub db clubId uid now with
    | .ok db' => db'
    | .error _ => db
  | .remove clubId memberUid adminUid now =>
    match removeMember db clubId memberUid adminUid now with
    | .ok db' => db'
    | .error _ => db

/-- Run `updateRSVP`; a failed call writes nothing. -/
def applyRSVP (db : DB) (eventId uid : String) (status : RSVPStatus)
    (now : Nat) : DB :=
  match updateRSVP db eventId uid status now with
  | .ok (db', _) => db'
  | .error _ => db

/-- Run `deleteClub`; a failed call writes nothing. -/
def applyDeleteClub (db : DB) (clubId : String) (now : Nat) : DB :=
  match deleteClub db clubId now with
  | .ok db' => db'
  | .error _ => db

/-- The number of `clubMembers` documents of a club with status `active`
(the query `where('clubId','==',clubId)`, `where('status','==','active')`). -/
def activeMemberCount (db : DB) (clubId : String) : Nat :=
  (db.clubMembers.filter
    (fun m => m.clubId == clubId && m.status == MemberStatus.active)).length

/-- The `clubMembers` documents of a club whose role is `owner`. -/
def ownerMembers (db : DB) (clubId : String) : List ClubMember :=
  db.clubMembers.filter (fun m => m.clubId == clubId && m.role == ClubRole.owner)

/-- The number of RSVP documents of an event with status `going` — the
count `Event.currentAttendees` is supposed to mirror. -/
def goingCount (db : DB) (eventId : String) : Nat :=
  (db.rsvps.filter
    (fun r => r.eventId == eventId && r.status == RSVPStatus.going)).length

/-- The number of RSVP documents of an event with status `not_going`. -/
def notGoingCount (db : DB) (eventId : String) : Nat :=
  (db.rsvps.filter
    (fun r => r.eventId == eventId && r.status == RSVPStatus.not_going)).length

/-- The number of RSVP documents for one `(eventId, uid)` pair. -/
def pairCount (db : DB) (eventId uid : String) : Nat :=
  (db.rsvps.filter (fun r => r.eventId == eventId && r.uid == uid)).length

/-- The first RSVP document for one `(eventId, uid)` pair, in store order. -/
def firstPair (db : DB) (eventId uid : String) : Option RSVP :=
  db.rsvps.find? (fun r => r.eventId == eventId && r.uid == uid)

section ListLemmas

variable {α : Type u} {p : α → Bool} {f : α → α}

theorem setDoc_of_not_any {l : List α} {v : α} (h : l.any p = false) :
    setDoc p v l = l ++ [v] := by
  simp [setDoc, h]

theorem exists_decomp_of_any {l : List α} (h : l.any p = true) :
    ∃ a x b, l = a ++ x :: b ∧ p x = true ∧ ∀ y ∈ a, p y = false := by
  induction l with
  | nil => simp at h
  | cons z zs ih =>
    by_cases hz : p z = true
    · exact ⟨[], z, zs, rfl, hz, by simp⟩
    · have hz' : p z = false := by simpa using hz
      have hzs : zs.any p = true := by
        simp [List.any_cons, hz'] at h
        simpa using h
      obtain ⟨a, x, b, rfl, hx, ha⟩ := ih hzs
      exact ⟨z :: a, x, b, rfl, hx, by
        intro y hy
        rcases List.mem_cons.mp hy with rfl | hy
        · exact hz'
        · exact ha y hy⟩

theorem updateFirst_append {a : List α} {x : α} {b : List α}
    (ha : ∀ y ∈ a, p y = false) (hx : p x = true) :
    updateFirst p f (a ++ x :: b) = a ++ f x :: b := by
  induction a with
  | nil => simp [updateFirst, hx]
  | cons z zs ih =>
    have hz := ha z (List.mem_cons_self z zs)
    have ih' := ih (fun y hy => ha y (List.mem_cons_of_mem z hy))
    simp [updateFirst, hz, ih']

theorem eraseFirst_append {a : List α} {x : α} {b : List α}
    (ha : ∀ y ∈ a, p y = false) (hx : p x = true) :
    eraseFirst p (a ++ x :: b) = a ++ b := by
  induction a with
  | nil => simp [eraseFirst, hx]
  | cons z zs ih =>
    have hz := ha z (List.mem_cons_self z zs)
    have ih' := ih (fun y hy => ha y (List.mem_cons_of_mem z hy))
    simp [eraseFirst, hz, ih']

theorem find?_append_first {a : List α} {x : α} {b : List α}
    (ha : ∀ y ∈ a, p y = false) (hx : p x = true) :
    (a ++ x :: b).find? p = some x := by
  induction a with
  | nil => simp [List.find?_cons, hx]
  | cons z zs ih =>
    have hz := ha z (List.mem_cons_self z zs)
    simp only [List.cons_append, List.find?_cons, hz]
    exact ih (fun y hy => ha y (List.mem_cons_of_mem z hy))

theorem map_updateFirst (p : α → Bool) (g : α → β) (f : α → α)
    (hf : ∀ x, g (f x) = g x) (l : List α) :
    (updateFirst p f l).map g = l.map g := by
  induction l with
  | nil => rfl
  | cons z zs ih =>
    by_cases hz : p z
    · simp [updateFirst, hz, hf]
    · simp [updateFirst, hz, ih]

theorem any_updateFirst (p : α → Bool) (f : α → α)
    (hf : ∀ x, p (f x) = p x) (l : List α) :
    (updateFirst p f l).any p = l.any p := by
  induction l with
  | nil => rfl
  | cons z zs ih =>
    by_cases hz : p z
    · simp [updateFirst, hz, hf]
    · simp [updateFirst, hz, ih]

theorem length_updateFirst (l : List α) :
    (updateFirst p f l).length = l.length := by
  induction l with
  | nil => rfl
  | cons z zs ih =>
    by_cases hz : p z
    · simp [updateFirst, hz]
    · simp [updateFirst, hz, ih]

theorem find?_eq_some_of_any {l : List α} (h : l.any p = true) :
    ∃ x, l.find? p = some x ∧ p x = true := by
  obtain ⟨a, x, b, rfl, hx, ha⟩ := exists_decomp_of_any h
  exact ⟨x, find?_append_first ha hx, hx⟩

theorem any_of_find?_eq_some {l : List α} {x : α} (h : l.find? p = some x) :
    l.any p = true := by
  have hmem := List.mem_of_find?_eq_some h
  have hx := List.find?_some h
  exact List.any_eq_true.mpr ⟨x, hmem, hx⟩

end ListLemmas

deriving instance DecidableEq for Except

/-- Run `updateMemberRole`; a failed call writes nothing. -/
def applyUpdateRole (db : DB) (clubId uid : String) (newRole : ClubRole)
    (now : Nat) : DB :=
  match updateMemberRole db clubId uid newRole now with
  | .ok db' => db'
  | .error _ => db

/-- The empty store. -/
def emptyDB : DB := ⟨[], [], [], [], []⟩

/-- Concrete `CreateClubData` used by the concrete scenarios. -/
def bookClubData : CreateClubData :=
  { clubName := "book club", description := "we read", isPublic := true }

/-- The literal capacity scenario's club data: `maxMembers = 2`. -/
def cappedClubData : CreateClubData := { bookClubData with maxMembers := some 2 }

/-- Club `c1` with `maxMembers = 2`, freshly created by owner `O`. -/
def dbCapOwner : DB := applyOp emptyDB (.create "O" cappedClubData "c1" 0)

/-- The capped club after member `A` joined: `memberCount = 2`, at capacity. -/
def dbCapTwo : DB := applyOp dbCapOwner (.join "c1" "A" .member 1)

/-- Club `c1` without a member cap, freshly created by owner `O`. -/
def dbOpen : DB := applyOp emptyDB (.create "O" bookClubData "c1" 0)

/-- The open club after member `A` joined. -/
def dbOpenA : DB := applyOp dbOpen (.join "c1" "A" .member 1)

/-- The open club after `A` joined twice (the second join is accepted). -/
def dbOpenAA : DB := applyOp dbOpenA (.join "c1" "A" .member 2)

/-- The open club after organizers `G` and `H` joined as well. -/
def dbOrgs : DB :=
  applyOp (applyOp dbOpenA (.join "c1" "G" .organizer 2)) (.join "c1" "H" .organizer 3)

/-- A fresh event `e1` with no RSVPs and `currentAttendees = 0`. -/
def sampleEvent : Event :=
  { eventId := "e1", clubId := "c1", title := "picnic", description := "park"
    dateTime := 10, location := "park", creatorUid := "O", maxAttendees := none
    currentAttendees := 0, createdAt := 0, updatedAt := 0, status := .active }

/-- Store holding only the fresh event `e1`. -/
def dbEvent : DB := { emptyDB with events := [sampleEvent] }

/-- The literal RSVP scenario, step 1: `A` sets `going`. -/
def dbRsvp1 : DB := applyRSVP dbEvent "e1" "A" .going 1

/-- The literal RSVP scenario, step 2: `B` sets `going`. -/
def dbRsvp2 : DB := applyRSVP dbRsvp1 "e1" "B" .going 2

/-- The literal RSVP scenario, step 3: `A` flips to `not_going`. -/
def dbRsvp3 : DB := applyRSVP dbRsvp2 "e1" "A" .not_going 3

/-- C1, counterexample.  Starting from `CreateClub` (owner `O`) and
`JoinClub` of `A`, a second `JoinClub` of the same `A` is accepted: it
overwrites `A`'s membership document but still increments
`Club.memberCount`, so the stored count (3) no longer equals the number of
active membership documents (2).  This refutes the claim that the equality
holds after every sequence of Join/Leave/Remove operations. -/
theorem C1_counterexample_double_join :
    (getClub dbOpenAA "c1").map Club.memberCount = some 3 ∧
    activeMemberCount dbOpenAA "c1" = 2 ∧
    (getClub dbOpenAA "c1").map Club.memberCount ≠
      some (activeMemberCount dbOpenAA "c1" : Int) := by decide

/-- C2.  The literal scenario from the claim, starting from an event with
zero RSVPs: the code stores `currentAttendees = 0, 1, 2` after the three
`updateRSVP` calls, while the true `going` counts (which the claim says the
counter equals) are `1, 2, 1`.  `updateEventAttendeeCount` counts the RSVP
documents *before* the batch holding the new RSVP commits, so the stored
counter always lags one write behind. -/
theorem C2_stale_attendee_counter :
    (getEvent dbRsvp1 "e1").map Event.currentAttendees = some 0 ∧
    goingCount dbRsvp1 "e1" = 1 ∧
    (getEvent dbRsvp2 "e1").map Event.currentAttendees = some 1 ∧
    goingCount dbRsvp2 "e1" = 2 ∧
    (getEvent dbRsvp3 "e1").map Event.currentAttendees = some 2 ∧
    goingCount dbRsvp3 "e1" = 1 := by decide

/-- C3, counterexample.  In a state with exactly one owner-role record,
one `updateMemberRole` call promotes member `A` to `owner` (the function
performs no permission or owner check at all), reaching a state with two
owner-role records; a second call demotes the real owner `O`, reaching a
state with zero owner-role records. -/
theorem C3_counterexample_two_owners :
    (ownerMembers dbOpenA "c1").length = 1 ∧
    updateMemberRole dbOpenA "c1" "A" .owner 5 =
      .ok (applyUpdateRole dbOpenA "c1" "A" .owner 5) ∧
    (ownerMembers (applyUpdateRole dbOpenA "c1" "A" .owner 5) "c1").length = 2 ∧
    (ownerMembers (applyUpdateRole dbOpenA "c1" "O" .member 6) "c1").length = 0 := by
  decide

/-- C4, counterexample.  With `G` and `H` both organizers of `c1`:
`updateMemberRole` promoting `A` to `organizer` succeeds (it takes no
acting member and performs no permission check), and `removeMember` by
organizer `G` on fellow organizer `H` succeeds and deletes `H`'s
membership — neither fails with a permission error as claimed. -/
theorem C4_counterexample_organizer_acts :
    getUserClubRole dbOrgs "c1" "G" = some .organizer ∧
    getUserClubRole dbOrgs "c1" "H" = some .organizer ∧
    updateMemberRole dbOrgs "c1" "A" .organizer 5 =
      .ok (applyUpdateRole dbOrgs "c1" "A" .organizer 5) ∧
    getUserClubRole (applyUpdateRole dbOrgs "c1" "A" .organizer 5) "c1" "A" =
      some .organizer ∧
    removeMember dbOrgs "c1" "H" "G" 6 =
      .ok (applyOp dbOrgs (.remove "c1" "H" "G" 6)) ∧
    getMember (applyOp dbOrgs (.remove "c1" "H" "G" 6)) "c1" "H" = none := by
  decide

/-- C5, counterexample.  `A` already has an active membership document in
`c1`, yet a further `joinClub` for `A` succeeds — there is no
`AlreadyMember` check anywhere in `joinClub`, refuting the claimed third
failure mode. -/
theorem C5_counterexample_no_alreadyMember_check :
    (getMember dbOpenA "c1" "A").map ClubMember.status = some .active ∧
    joinClub dbOpenA "c1" "A" .member 2 =
      .ok (applyOp dbOpenA (.join "c1" "A" .member 2)) := by decide

/-- C7, counterexample.  The owner calling `removeMember` on themselves
fails with `Cannot remove club owner`, not with the claimed
`Cannot remove yourself` kind: the owner-target check runs before the
self-removal check. -/
theorem C7_counterexample_owner_self_remove :
    getUserClubRole dbOpen "c1" "O" = some .owner ∧
    removeMember dbOpen "c1" "O" "O" 5 = .error .cannotRemoveOwner ∧
    removeMember dbOpen "c1" "O" "O" 5 ≠ .error .cannotRemoveSelf := by decide

theorem perm_insertByCreatedDesc (x : RSVP) (l : List RSVP) :
    (insertByCreatedDesc x l).Perm (x :: l) := by
  induction l with
  | nil => exact List.Perm.refl _
  | cons y ys ih =>
    by_cases h : y.createdAt ≤ x.createdAt
    · simp [insertByCreatedDesc, h]
    · simp only [insertByCreatedDesc, if_neg h]
      exact (ih.cons y).trans (List.Perm.swap x y ys)

theorem perm_sortByCreatedDesc (l : List RSVP) : (sortByCreatedDesc l).Perm l := by
  induction l with
  | nil => exact List.Perm.refl _
  | cons x xs ih =>
    exact (perm_insertByCreatedDesc x (sortByCreatedDesc xs)).trans (ih.cons x)

theorem length_filter_sortByCreatedDesc (q : RSVP → Bool) (l : List RSVP) :
    ((sortByCreatedDesc l).filter q).length = (l.filter q).length :=
  ((perm_sortByCreatedDesc l).filter q).length_eq

theorem length_filter_status (l : List RSVP) (e : String) (st : RSVPStatus) :
    ((l.filter (fun r => r.eventId == e)).filter (fun r => r.status == st)).length =
      (l.filter (fun r => r.eventId == e && r.status == st)).length := by
  rw [List.filter_filter]
  rw [List.filter_congr (fun a _ => Bool.and_comm (a.status == st) (a.eventId == e))]

theorem length_filter_event_split (l : List RSVP) (e : String) :
    (l.filter (fun r => r.eventId == e)).length =
      (l.filter (fun r => r.eventId == e && r.status == RSVPStatus.going)).length +
        (l.filter (fun r => r.eventId == e && r.status == RSVPStatus.not_going)).length := by
  induction l with
  | nil => rfl
  | cons r rs ih =>
    cases hst : r.status <;> by_cases he : (r.eventId == e) = true <;>
      simp [List.filter_cons, he, hst, ih] <;> omega

theorem mem_updateFirst_of_neg {p : α → Bool} {f : α → α} {c : α} {l : List α}
    (hc : c ∈ l) (hpc : p c = false) : c ∈ updateFirst p f l := by
  induction l with
  | nil => simp at hc
  | cons z zs ih =>
    by_cases hz : p z = true
    · rcases List.mem_cons.mp hc with rfl | h
      · rw [hpc] at hz; cases hz
      · simp only [updateFirst, hz, if_true]
        exact List.mem_cons_of_mem _ h
    · have hz' : p z = false := by simpa using hz
      simp only [updateFirst, hz', Bool.false_eq_true, if_false]
      rcases List.mem_cons.mp hc with rfl | h
      · exact List.mem_cons_self _ _
      · exact List.mem_cons_of_mem _ (ih h)

theorem find?_updateFirst_some (p : α → Bool) (f : α → α)
    (hf : ∀ x, p x = true → p (f x) = true) {l : List α} {x : α}
    (h : l.find? p = some x) : (updateFirst p f l).find? p = some (f x) := by
  induction l with
  | nil => simp at h
  | cons z zs ih =>
    by_cases hz : p z = true
    · rw [List.find?_cons_of_pos _ hz] at h
      injection h with h; subst h
      simp only [updateFirst, hz, if_true]
      exact List.find?_cons_of_pos _ (hf _ hz)
    · have hz' : p z = false := by simpa using hz
      rw [List.find?_cons_of_neg _ hz] at h
      simp only [updateFirst, hz', Bool.false_eq_true, if_false]
      rw [List.find?_cons_of_neg _ hz]
      exact ih h

/-- C10.  `getRSVPSummary` returns exactly the number of `going` RSVP
documents of the event, the number of `not_going` documents, and the total
number of its RSVP documents; every RSVP status is one of the two values,
so `total = going + not_going`. -/
theorem C10_rsvp_summary_correct (db : DB) (eventId : String) :
    (getRSVPSummary db eventId).going = goingCount db eventId ∧
    (getRSVPSummary db eventId).not_going = notGoingCount db eventId ∧
    (getRSVPSummary db eventId).total =
      (db.rsvps.filter (fun r => r.eventId == eventId)).length ∧
    (getRSVPSummary db eventId).total =
      (getRSVPSummary db eventId).going + (getRSVPSummary db eventId).not_going := by
  have hgo : (getRSVPSummary db eventId).going = goingCount db eventId := by
    simp only [getRSVPSummary, getEventRSVPs, goingCount]
    rw [length_filter_sortByCreatedDesc, length_filter_status]
  have hng : (getRSVPSummary db eventId).not_going = notGoingCount db eventId := by
    simp only [getRSVPSummary, getEventRSVPs, notGoingCount]
    rw [length_filter_sortByCreatedDesc, length_filter_status]
  have htot : (getRSVPSummary db eventId).total =
      (db.rsvps.filter (fun r => r.eventId == eventId)).length := by
    simp only [getRSVPSummary, getEventRSVPs]
    exact (perm_sortByCreatedDesc _).length_eq
  refine ⟨hgo, hng, htot, ?_⟩
  rw [hgo, hng, htot, goingCount, notGoingCount]
  exact length_filter_event_split db.rsvps eventId

/-- C9.  `deleteClub` touches only the club document: the membership,
stats, event and RSVP collections are returned unchanged, no club document
is removed (the collection keeps its length, and every other club document
is still present), and the club itself — when it exists — is rewritten
with `status := archived` and a fresh `updatedAt`, all its other fields
unchanged. -/
theorem C9_deleteClub_frame (db : DB) (clubId : String) (now : Nat) :
    (applyDeleteClub db clubId now).clubMembers = db.clubMembers ∧
    (applyDeleteClub db clubId now).clubStats = db.clubStats ∧
    (applyDeleteClub db clubId now).events = db.events ∧
    (applyDeleteClub db clubId now).rsvps = db.rsvps ∧
    (applyDeleteClub db clubId now).clubs.length = db.clubs.length ∧
    (∀ c ∈ db.clubs, isClubDoc clubId c = false →
      c ∈ (applyDeleteClub db clubId now).clubs) ∧
    (∀ club, getClub db clubId = some club →
      getClub (applyDeleteClub db clubId now) clubId =
        some { club with status := .archived, updatedAt := now }) := by
  by_cases h : db.clubs.any (isClubDoc clubId) = true
  · have hres : applyDeleteClub db clubId now =
        { db with
            clubs := updateFirst (isClubDoc clubId)
              (fun c =>
                applyClubUpdate c { status := some .archived, updatedAt := some now } now)
              db.clubs } := by
      simp [applyDeleteClub, deleteClub, updateClub, maskError, h]
    rw [hres]
    have hf : ∀ c : Club, isClubDoc clubId c = true →
        isClubDoc clubId
          (applyClubUpdate c { status := some .archived, updatedAt := some now } now) =
          true := by
      intro c hc
      simpa [isClubDoc, applyClubUpdate] using hc
    refine ⟨rfl, rfl, rfl, rfl, length_updateFirst _, ?_, ?_⟩
    · intro c hc hpc
      exact mem_updateFirst_of_neg hc hpc
    · intro club hclub
      have hfind := find?_updateFirst_some _ _ hf hclub
      exact hfind
  · have h' : db.clubs.any (isClubDoc clubId) = false := by simpa using h
    have hres : applyDeleteClub db clubId now = db := by
      simp [applyDeleteClub, deleteClub, updateClub, maskError, h']
    rw [hres]
    refine ⟨rfl, rfl, rfl, rfl, rfl, fun c hc _ => hc, ?_⟩
    intro club hclub
    have := any_of_find?_eq_some hclub
    rw [h'] at this
    cases this

/-- The club document of `dbOpen` as created by `createClub`. -/
def openClub : Club :=
  { clubId := "c1", clubName := "book club", description := "we read"
    ownerUid := "O", createdAt := 0, updatedAt := 0, status := .active
    settings := DEFAULT_CLUB_SETTINGS, memberCount := 1, maxMembers := none
    tags := [], isPublic := true, inviteCode := none }

/-- C9, witness: archiving the concrete club `c1` leaves the membership
documents untouched and rewrites only `status` and `updatedAt` of the club
document. -/
theorem C9_witness :
    (applyDeleteClub dbOpen "c1" 9).clubMembers = dbOpen.clubMembers ∧
    getClub (applyDeleteClub dbOpen "c1" 9) "c1" =
      some { openClub with status := .archived, updatedAt := 9 } :=
  ⟨(C9_deleteClub_frame dbOpen "c1" 9).1,
   (C9_deleteClub_frame dbOpen "c1" 9).2.2.2.2.2.2 openClub (by decide)⟩

theorem filter_eraseFirst_of_neg (p q : α → Bool) {l : List α} {x : α}
    (h : l.find? p = some x) (hq : q x = false) :
    (eraseFirst p l).filter q = l.filter q := by
  induction l with
  | nil => simp at h
  | cons z zs ih =>
    by_cases hz : p z = true
    · rw [List.find?_cons_of_pos _ hz] at h
      injection h with h; subst h
      simp [eraseFirst, hz, List.filter_cons, hq]
    · have hz' : p z = false := by simpa using hz
      rw [List.find?_cons_of_neg _ hz] at h
      simp only [eraseFirst, hz', Bool.false_eq_true, if_false]
      simp [List.filter_cons, ih h]

/-- C3, amended.  The part of the claim that survives: `removeMember`
never changes the set of owner-role membership documents of any club — it
refuses an owner target and every failure writes nothing.  (The other
operation the claim quantifies over, `updateMemberRole`, has no guard at
all; the counterexample shows a single call reaching two owners or zero
owners.) -/
theorem C3_amended_removeMember_preserves_owners
    (db : DB) (clubId memberUid adminUid : String) (now : Nat) (k : String) :
    ownerMembers (applyOp db (.remove clubId memberUid adminUid now)) k =
      ownerMembers db k := by
  by_cases h1 : ¬(getUserClubRole db clubId adminUid = some .owner ∨
      getUserClubRole db clubId adminUid = some .organizer)
  · have hrm : removeMember db clubId memberUid adminUid now =
        .error .insufficientPermissions := by
      simp only [removeMember]
      rw [if_pos h1]
    simp [applyOp, hrm]
  · by_cases h2 : getUserClubRole db clubId memberUid = some .owner
    · have hrm : removeMember db clubId memberUid adminUid now =
          .error .cannotRemoveOwner := by
        simp only [removeMember]
        rw [if_neg h1, if_pos h2]
      simp [applyOp, hrm]
    · by_cases h3 : (memberUid == adminUid) = true
      · have hrm : removeMember db clubId memberUid adminUid now =
            .error .cannotRemoveSelf := by
          simp only [removeMember]
          rw [if_neg h1, if_neg h2, if_pos h3]
        simp [applyOp, hrm]
      · cases hm : getMember db clubId memberUid with
        | none =>
          have hrm : removeMember db clubId memberUid adminUid now =
              .error .memberNotFound := by
            simp only [removeMember]
            rw [if_neg h1, if_neg h2, if_neg h3]
            simp only [hm]
          simp [applyOp, hrm]
        | some m =>
          have hrole : (m.role == ClubRole.owner) = false := by
            have hmr : getUserClubRole db clubId memberUid = some m.role := by
              simp [getUserClubRole, hm]
            rw [hmr] at h2
            simp only [Option.some.injEq] at h2
            exact beq_eq_false_iff_ne.mpr h2
          have hq : (m.clubId == k && m.role == ClubRole.owner) = false := by
            simp [hrole]
          by_cases h4 : (db.clubs.any (isClubDoc clubId) &&
              db.clubStats.any (isStatsDoc clubId)) = true
          · have hfind : db.clubMembers.find? (isMemberDoc clubId memberUid) = some m := hm
            simp only [applyOp, removeMember]
            rw [if_neg h1, if_neg h2, if_neg h3]
            simp only [hm]
            rw [if_pos h4]
            simp only [ownerMembers]
            exact filter_eraseFirst_of_neg _
              (fun x : ClubMember => x.clubId == k && x.role == ClubRole.owner)
              hfind hq
          · have hrm : removeMember db clubId memberUid adminUid now =
                .error .updateFailed := by
              simp only [removeMember]
              rw [if_neg h1, if_neg h2, if_neg h3]
              simp only [hm]
              rw [if_neg h4]
            simp [applyOp, hrm]

/-- C4, amended.  What the code actually enforces: an actor who is neither
`owner` nor `organizer` always gets the insufficient-permissions error from
`removeMember` (with no writes), and any actor's `removeMember` on an
owner target fails with `Cannot remove club owner` (with no writes).  An
organizer *can* remove a fellow organizer, and `updateMemberRole` takes no
actor and performs no permission check at all (see the counterexample). -/
theorem C4_amended_removeMember_permission_checks
    (db : DB) (clubId memberUid adminUid : String) (now : Nat) :
    (¬(getUserClubRole db clubId adminUid = some .owner ∨
        getUserClubRole db clubId adminUid = some .organizer) →
      removeMember db clubId memberUid adminUid now = .error .insufficientPermissions ∧
      applyOp db (.remove clubId memberUid adminUid now) = db) ∧
    ((getUserClubRole db clubId adminUid = some .owner ∨
        getUserClubRole db clubId adminUid = some .organizer) →
      getUserClubRole db clubId memberUid = some .owner →
      removeMember db clubId memberUid adminUid now = .error .cannotRemoveOwner ∧
      applyOp db (.remove clubId memberUid adminUid now) = db) := by
  constructor
  · intro h1
    have hrm : removeMember db clubId memberUid adminUid now =
        .error .insufficientPermissions := by
      simp [removeMember, h1]
    exact ⟨hrm, by simp [applyOp, hrm]⟩
  · intro h1 h2
    have hrm : removeMember db clubId memberUid adminUid now =
        .error .cannotRemoveOwner := by
      simp [removeMember, h1, h2]
    exact ⟨hrm, by simp [applyOp, hrm]⟩

/-- C4, witness: in the concrete store, a non-member actor gets the
insufficient-permissions error and an owner-targeting removal gets the
owner-protection error. -/
theorem C4_amended_witness :
    removeMember dbOpen "c1" "A" "A" 7 = .error .insufficientPermissions ∧
    removeMember dbOpen "c1" "O" "O" 7 = .error .cannotRemoveOwner :=
  ⟨((C4_amended_removeMember_permission_checks dbOpen "c1" "A" "A" 7).1
      (by decide)).1,
   ((C4_amended_removeMember_permission_checks dbOpen "c1" "O" "O" 7).2
      (by decide) (by decide)).1⟩

/-- C5, amended.  `joinClub` does fail — writing nothing — when the club
is missing or at capacity, but each failure is surfaced by the `catch`
block as the single generic `Failed to join club` error (the distinct
`Club not found` / `Club is full` kinds are the internal branches); and
there is no `AlreadyMember` failure mode at all: a join by an existing
active member succeeds (see the counterexample and C8). -/
theorem C5_amended_join_failure_modes
    (db : DB) (clubId uid : String) (role : ClubRole) (now : Nat) :
    (getClub db clubId = none →
      joinClubTry db clubId uid role now = .error .clubNotFound ∧
      joinClub db clubId uid role now = .error .failedToJoinClub ∧
      applyOp db (.join clubId uid role now) = db) ∧
    (∀ club, getClub db clubId = some club → clubIsFull club = true →
      joinClubTry db clubId uid role now = .error .clubIsFull ∧
      joinClub db clubId uid role now = .error .failedToJoinClub ∧
      applyOp db (.join clubId uid role now) = db) := by
  constructor
  · intro h
    have htry : joinClubTry db clubId uid role now = .error .clubNotFound := by
      simp [joinClubTry, h]
    exact ⟨htry, by simp [joinClub, maskError, htry],
      by simp [applyOp, joinClub, maskError, htry]⟩
  · intro club h hfull
    have htry : joinClubTry db clubId uid role now = .error .clubIsFull := by
      simp [joinClubTry, h, hfull]
    exact ⟨htry, by simp [joinClub, maskError, htry],
      by simp [applyOp, joinClub, maskError, htry]⟩

/-- The club document of `dbCapTwo`: capacity 2, `memberCount` 2. -/
def cappedClubAtTwo : Club :=
  { clubId := "c1", clubName := "book club", description := "we read"
    ownerUid := "O", createdAt := 0, updatedAt := 1, status := .active
    settings := DEFAULT_CLUB_SETTINGS, memberCount := 2, maxMembers := some 2
    tags := [], isPublic := true, inviteCode := none }

/-- C5, witness: the literal scenario — club with `maxMembers = 2`, owner
plus member `A`, then `B` attempts to join: the attempt fails on the
capacity branch and `memberCount` stays 2. -/
theorem C5_amended_witness :
    getClub dbCapTwo "c1" = some cappedClubAtTwo ∧
    clubIsFull cappedClubAtTwo = true ∧
    joinClubTry dbCapTwo "c1" "B" .member 2 = .error .clubIsFull ∧
    joinClub dbCapTwo "c1" "B" .member 2 = .error .failedToJoinClub ∧
    applyOp dbCapTwo (.join "c1" "B" .member 2) = dbCapTwo ∧
    (getClub (applyOp dbCapTwo (.join "c1" "B" .member 2)) "c1").map Club.memberCount =
      some 2 := by
  have h := (C5_amended_join_failure_modes dbCapTwo "c1" "B" .member 2).2
    cappedClubAtTwo (by decide) (by decide)
  refine ⟨by decide, by decide, h.1, h.2.1, h.2.2, ?_⟩
  rw [h.2.2]
  decide

/-- C7, amended.  An owner targeting themselves through `removeMember`
fails with `Cannot remove club owner` (the owner-target check precedes the
self-removal check, so `Cannot remove yourself` is not the surfaced kind),
and the owner's `leaveClub` hits the `Owner cannot leave club` branch,
surfaced by its `catch` block as the generic `Failed to leave club` error;
in both cases nothing is written. -/
theorem C7_amended_owner_self_remove_and_leave
    (db : DB) (clubId uid : String) (now : Nat)
    (h : getUserClubRole db clubId uid = some .owner) :
    removeMember db clubId uid uid now = .error .cannotRemoveOwner ∧
    applyOp db (.remove clubId uid uid now) = db ∧
    leaveClubTry db clubId uid now = .error .ownerCannotLeave ∧
    leaveClub db clubId uid now = .error .failedToLeaveClub ∧
    applyOp db (.leave clubId uid now) = db := by
  cases hm : getMember db clubId uid with
  | none => rw [getUserClubRole, hm] at h; cases h
  | some m =>
    have hrole : m.role = .owner := by
      rw [getUserClubRole, hm] at h
      simpa using h
    have hrm : removeMember db clubId uid uid now = .error .cannotRemoveOwner := by
      simp [removeMember, h]
    have hlt : leaveClubTry db clubId uid now = .error .ownerCannotLeave := by
      simp [leaveClubTry, hm, hrole]
    have hl : leaveClub db clubId uid now = .error .failedToLeaveClub := by
      simp [leaveClub, maskError, hlt]
    exact ⟨hrm, by simp [applyOp, hrm], hlt, hl, by simp [applyOp, hl]⟩

/-- C7, witness: the concrete owner `O` of club `c1`. -/
theorem C7_witness :
    removeMember dbOpen "c1" "O" "O" 9 = .error .cannotRemoveOwner ∧
    leaveClubTry dbOpen "c1" "O" 9 = .error .ownerCannotLeave ∧
    leaveClub dbOpen "c1" "O" 9 = .error .failedToLeaveClub := by
  have h := C7_amended_owner_self_remove_and_leave dbOpen "c1" "O" 9 (by decide)
  exact ⟨h.1, h.2.2.1, h.2.2.2.1⟩

theorem length_filter_updateFirst (p q : α → Bool) (f : α → α) {l : List α} {x : α}
    (h : l.find? p = some x) (hq : q (f x) = q x) :
    ((updateFirst p f l).filter q).length = (l.filter q).length := by
  induction l with
  | nil => simp at h
  | cons z zs ih =>
    by_cases hz : p z = true
    · rw [List.find?_cons_of_pos _ hz] at h
      injection h with h; subst h
      cases hqz : q z <;>
        simp [updateFirst, hz, List.filter_cons, hq, hqz]
    · have hz' : p z = false := by simpa using hz
      rw [List.find?_cons_of_neg _ hz] at h
      cases hqz : q z <;>
        simp [updateFirst, hz', List.filter_cons, hqz, ih h]

theorem filter_pair (l : List RSVP) (e u : String) :
    (l.filter (fun r => r.eventId == e)).filter (fun r => r.uid == u) =
      l.filter (fun r => r.eventId == e && r.uid == u) := by
  rw [List.filter_filter]
  exact List.filter_congr (fun a _ => Bool.and_comm (a.uid == u) (a.eventId == e))

theorem upsertRSVP_fresh (l : List RSVP) (e u : String) (st : RSVPStatus) (now : Nat)
    (h : l.filter (fun r => r.eventId == e && r.uid == u) = []) :
    upsertRSVP l e u st now =
      l ++ [{ eventId := e, uid := u, status := st, createdAt := now, updatedAt := now }] := by
  have hE : (l.filter (fun r => r.eventId == e)).filter (fun r => r.uid == u) = [] := by
    rw [filter_pair]; exact h
  simp [upsertRSVP, hE]

theorem upsertRSVP_existing (l : List RSVP) (e u : String) (st : RSVPStatus) (now : Nat)
    (h : l.filter (fun r => r.eventId == e && r.uid == u) ≠ []) :
    upsertRSVP l e u st now =
      updateFirst (fun r => r.eventId == e && r.uid == u)
        (fun r => { r with status := st, updatedAt := now }) l := by
  cases hE : (l.filter (fun r => r.eventId == e)).filter (fun r => r.uid == u) with
  | nil => exact absurd (by rw [← filter_pair]; exact hE) h
  | cons x xs => simp [upsertRSVP, hE]

theorem any_pair_of_filter_ne_nil {l : List RSVP} {e u : String}
    (h : l.filter (fun r => r.eventId == e && r.uid == u) ≠ []) :
    l.any (fun r => r.eventId == e && r.uid == u) = true := by
  cases hf : l.filter (fun r => r.eventId == e && r.uid == u) with
  | nil => exact absurd hf h
  | cons y ys =>
    have hy := List.mem_filter.mp (hf ▸ List.mem_cons_self y ys)
    exact List.any_eq_true.mpr ⟨y, hy.1, hy.2⟩

theorem pairCount_upsertRSVP (l : List RSVP) (e u : String) (st : RSVPStatus)
    (now : Nat)
    (h : (l.filter (fun r => r.eventId == e && r.uid == u)).length ≤ 1) :
    ((upsertRSVP l e u st now).filter
      (fun r => r.eventId == e && r.uid == u)).length = 1 := by
  by_cases hnil : l.filter (fun r => r.eventId == e && r.uid == u) = []
  · rw [upsertRSVP_fresh l e u st now hnil, List.filter_append, hnil]
    simp
  · rw [upsertRSVP_existing l e u st now hnil]
    obtain ⟨x0, hfind, _⟩ := find?_eq_some_of_any (any_pair_of_filter_ne_nil hnil)
    rw [length_filter_updateFirst (fun r : RSVP => r.eventId == e && r.uid == u)
      (fun r : RSVP => r.eventId == e && r.uid == u)
      (fun r : RSVP => { r with status := st, updatedAt := now }) hfind rfl]
    have hpos : 0 < (l.filter (fun r => r.eventId == e && r.uid == u)).length :=
      List.length_pos.mpr hnil
    omega

theorem find?_pair_upsertRSVP (l : List RSVP) (e u : String) (st : RSVPStatus)
    (now : Nat) :
    ∃ r', (upsertRSVP l e u st now).find?
        (fun r => r.eventId == e && r.uid == u) = some r' ∧ r'.status = st := by
  by_cases hnil : l.filter (fun r => r.eventId == e && r.uid == u) = []
  · rw [upsertRSVP_fresh l e u st now hnil]
    refine ⟨{ eventId := e, uid := u, status := st, createdAt := now, updatedAt := now },
      ?_, rfl⟩
    have hall : ∀ y ∈ l, (fun r : RSVP => r.eventId == e && r.uid == u) y = false := by
      intro y hy
      have := List.filter_eq_nil_iff.mp hnil y hy
      simpa using this
    exact find?_append_first hall (by simp)
  · rw [upsertRSVP_existing l e u st now hnil]
    obtain ⟨x0, hfind, _⟩ := find?_eq_some_of_any (any_pair_of_filter_ne_nil hnil)
    exact ⟨_, find?_updateFirst_some _
      (fun r => { r with status := st, updatedAt := now })
      (fun x hx => hx) hfind, rfl⟩

theorem attendeeCountValue_eq_goingCount (db : DB) (e : String) :
    attendeeCountValue db e = goingCount db e := by
  simp only [attendeeCountValue, getEventRSVPs, goingCount]
  rw [length_filter_sortByCreatedDesc, length_filter_status]

theorem updateRSVP_eq_ok (db : DB) (e u : String) (st : RSVPStatus) (now : Nat)
    (hvalid : validRSVPInput e u = true)
    (hevent : db.events.any (isEventDoc e) = true) :
    ∃ r, updateRSVP db e u st now =
      .ok ({ db with
              rsvps := upsertRSVP db.rsvps e u st now
              events := updateFirst (isEventDoc e)
                (fun ev => { ev with
                    currentAttendees := (attendeeCountValue db e : Int)
                    updatedAt := now })
                db.events }, r) := by
  cases hE : (db.rsvps.filter (fun r => r.eventId == e)).filter (fun r => r.uid == u) with
  | nil =>
    refine ⟨{ eventId := e, uid := u, status := st, createdAt := now, updatedAt := now },
      ?_⟩
    simp only [updateRSVP, hE]
    rw [if_neg (by simp [hvalid]), if_pos hevent]
  | cons x xs =>
    refine ⟨{ eventId := e, uid := u, status := st, createdAt := x.createdAt
              updatedAt := now }, ?_⟩
    simp only [updateRSVP, hE]
    rw [if_neg (by simp [hvalid]), if_pos hevent]

theorem applyRSVP_eq_of_ok {db db' : DB} {e u : String} {st : RSVPStatus}
    {now : Nat} {r : RSVP} (h : updateRSVP db e u st now = .ok (db', r)) :
    applyRSVP db e u st now = db' := by
  simp only [applyRSVP, h]

/-- Invariant 1 of the spec: every club document stores a `memberCount`
equal to the number of its `active` membership documents. -/
def MemberCountInv (db : DB) : Prop :=
  ∀ c ∈ db.clubs, c.memberCount = (activeMemberCount db c.clubId : Int)

/-- In states reachable by the membership operations every membership
document has status `active` (`createClub` and `joinClub` only write
`active` documents, and nothing in these operations changes a status). -/
def AllMembersActive (db : DB) : Prop :=
  ∀ m ∈ db.clubMembers, m.status = MemberStatus.active

/-- Club ids are generator-assigned and unique. -/
def ClubIdsNodup (db : DB) : Prop :=
  (db.clubs.map Club.clubId).Nodup

/-- The inductive invariant for the membership ledger. -/
def MembershipInv (db : DB) : Prop :=
  MemberCountInv db ∧ AllMembersActive db ∧ ClubIdsNodup db

/-- The side conditions under which the invariant is preserved: a created
club gets a fresh generator id, and — the condition the code does *not*
check — a join targets a `(clubId, uid)` pair with no existing membership
document. -/
def FreshOp (db : DB) : Op → Prop
  | .create _ _ clubId _ =>
    (∀ c ∈ db.clubs, c.clubId ≠ clubId) ∧ (∀ m ∈ db.clubMembers, m.clubId ≠ clubId)
  | .join clubId uid _ _ => getMember db clubId uid = none
  | .leave _ _ _ => True
  | .remove _ _ _ _ => True

theorem length_filter_append_nomatch (q : α → Bool) (l : List α) (x : α)
    (hx : q x = false) :
    ((l ++ [x]).filter q).length = (l.filter q).length := by
  rw [List.filter_append]
  simp [hx]

theorem length_filter_append_match (q : α → Bool) (l : List α) (x : α)
    (hx : q x = true) :
    ((l ++ [x]).filter q).length = (l.filter q).length + 1 := by
  rw [List.filter_append]
  simp [hx]

theorem length_filter_middle_erase (q : α → Bool) (a b : List α) (x : α)
    (hx : q x = true) :
    ((a ++ x :: b).filter q).length = ((a ++ b).filter q).length + 1 := by
  simp [List.filter_append, List.filter_cons, hx]
  omega

theorem length_filter_middle_skip (q : α → Bool) (a b : List α) (x : α)
    (hx : q x = false) :
    ((a ++ x :: b).filter q).length = ((a ++ b).filter q).length := by
  simp [List.filter_append, List.filter_cons, hx]

theorem clubId_ne_of_decomp {a b : List Club} {x : Club}
    (hnd : ((a ++ x :: b).map Club.clubId).Nodup) :
    ∀ y ∈ a ++ b, y.clubId ≠ x.clubId := by
  rw [List.map_append, List.map_cons] at hnd
  have hnotin : x.clubId ∉ a.map Club.clubId ++ b.map Club.clubId :=
    (List.nodup_cons.mp (List.nodup_middle.mp hnd)).1
  intro y hy hcontra
  apply hnotin
  rw [← hcontra, ← List.map_append]
  exact List.mem_map_of_mem Club.clubId hy

theorem inv_erase_dec (db : DB) (clubId uid : String) (now : Nat) (m : ClubMember)
    (hm : getMember db clubId uid = some m)
    (hanyC : db.clubs.any (isClubDoc clubId) = true)
    (h : MembershipInv db) :
    MembershipInv
      { db with
          clubMembers := eraseFirst (isMemberDoc clubId uid) db.clubMembers
          clubs := updateFirst (isClubDoc clubId)
            (fun c => { c with memberCount := c.memberCount - 1, updatedAt := now })
            db.clubs
          clubStats := updateFirst (isStatsDoc clubId)
            (fun s => { s with
                totalMembers := s.totalMembers - 1
                activeMembers := s.activeMembers - 1
                lastActivityAt := now
                updatedAt := now })
            db.clubStats } := by
  obtain ⟨hcnt, hact, hnd⟩ := h
  have hanyM : db.clubMembers.any (isMemberDoc clubId uid) = true :=
    any_of_find?_eq_some hm
  obtain ⟨am, xm, bm, hlm, hxm, ham⟩ := exists_decomp_of_any hanyM
  have hfm : db.clubMembers.find? (isMemberDoc clubId uid) = some xm := by
    rw [hlm]; exact find?_append_first ham hxm
  have hxm_eq : xm = m := by
    rw [getMember, hfm] at hm
    injection hm
  subst hxm_eq
  have hmclub : xm.clubId = clubId := by
    have h' := hxm
    simp only [isMemberDoc, Bool.and_eq_true] at h'
    exact eq_of_beq h'.1
  have hmactive : xm.status = MemberStatus.active := by
    apply hact
    rw [hlm]
    exact List.mem_append.mpr (Or.inr (List.mem_cons_self _ _))
  have herase : eraseFirst (isMemberDoc clubId uid) db.clubMembers = am ++ bm := by
    rw [hlm]; exact eraseFirst_append ham hxm
  obtain ⟨a, x, b, hl, hx, ha⟩ := exists_decomp_of_any hanyC
  have hxclub : x.clubId = clubId := eq_of_beq hx
  have hupd : updateFirst (isClubDoc clubId)
      (fun c => { c with memberCount := c.memberCount - 1, updatedAt := now })
      db.clubs =
      a ++ { x with memberCount := x.memberCount - 1, updatedAt := now } :: b := by
    rw [hl]; exact updateFirst_append ha hx
  have hne_ab : ∀ y ∈ a ++ b, y.clubId ≠ clubId := by
    intro y hy
    rw [← hxclub]
    exact clubId_ne_of_decomp (hl ▸ hnd) y hy
  have hcount_keep : ∀ k : String, k ≠ clubId →
      ((am ++ bm).filter
        (fun mm => mm.clubId == k && mm.status == MemberStatus.active)).length =
      ((db.clubMembers).filter
        (fun mm => mm.clubId == k && mm.status == MemberStatus.active)).length := by
    intro k hk
    rw [hlm]
    exact (length_filter_middle_skip _ am bm xm
      (by simp [hmclub, beq_eq_false_iff_ne.mpr (Ne.symm hk)])).symm
  have hcount_dec : ((db.clubMembers).filter
      (fun mm => mm.clubId == clubId && mm.status == MemberStatus.active)).length =
      ((am ++ bm).filter
        (fun mm => mm.clubId == clubId && mm.status == MemberStatus.active)).length + 1 := by
    rw [hlm]
    exact length_filter_middle_erase _ am bm xm (by simp [hmclub, hmactive])
  refine ⟨?_, ?_, ?_⟩
  · intro c' hc'
    simp only [activeMemberCount, herase]
    rw [hupd] at hc'
    rcases List.mem_append.mp hc' with hA | hB
    · have hyne := hne_ab c' (List.mem_append.mpr (Or.inl hA))
      have hmem : c' ∈ db.clubs := by
        rw [hl]; exact List.mem_append.mpr (Or.inl hA)
      have hold := hcnt c' hmem
      rw [hcount_keep c'.clubId hyne]
      simpa [activeMemberCount] using hold
    · rcases List.mem_cons.mp hB with rfl | hbb
      · have hmemx : x ∈ db.clubs := by
          rw [hl]; exact List.mem_append.mpr (Or.inr (List.mem_cons_self _ _))
        have hold : x.memberCount = ((db.clubMembers.filter
            (fun mm => mm.clubId == clubId && mm.status == MemberStatus.active)).length
              : Int) := by
          have := hcnt x hmemx
          rw [hxclub] at this
          simpa [activeMemberCount] using this
        show x.memberCount - 1 = _
        rw [hxclub, hcount_dec] at *
        omega
      · have hyne := hne_ab c' (List.mem_append.mpr (Or.inr hbb))
        have hmem : c' ∈ db.clubs := by
          rw [hl]
          exact List.mem_append.mpr (Or.inr (List.mem_cons_of_mem _ hbb))
        have hold := hcnt c' hmem
        rw [hcount_keep c'.clubId hyne]
        simpa [activeMemberCount] using hold
  · intro m' hm'
    simp only [herase] at hm'
    apply hact
    rw [hlm]
    rcases List.mem_append.mp hm' with h1 | h2
    · exact List.mem_append.mpr (Or.inl h1)
    · exact List.mem_append.mpr (Or.inr (List.mem_cons_of_mem _ h2))
  · show (List.map Club.clubId (updateFirst (isClubDoc clubId)
      (fun c => { c with memberCount := c.memberCount - 1, updatedAt := now })
      db.clubs)).Nodup
    rw [map_updateFirst (isClubDoc clubId) Club.clubId
      (fun c => { c with memberCount := c.memberCount - 1, updatedAt := now })
      (fun c => rfl) db.clubs]
    exact hnd

/-- C1, amended.  Invariant 1 — `Club.memberCount` equals the number of
`active` membership documents of the club — is preserved by `createClub`
(with a fresh generator id), by `leaveClub` and by `removeMember`
unconditionally, and by `joinClub` *provided the joining user has no
existing membership document*; the code performs no such check, and the
counterexample shows a join by an existing member breaking the invariant.
Failing calls write nothing, so the invariant holds after every sequence
of these operations under the stated freshness side conditions. -/
theorem C1_amended_memberCount_invariant (db : DB) (op : Op)
    (h : MembershipInv db) (hf : FreshOp db op) :
    MembershipInv (applyOp db op) := by
  cases op with
  | create ownerUid clubData clubId now =>
    obtain ⟨hfc, hfm⟩ := hf
    by_cases hv1 : (trimString clubData.clubName == "") = true
    · have happ : applyOp db (.create ownerUid clubData clubId now) = db := by
        simp [applyOp, createClub, hv1]
      rw [happ]; exact h
    · by_cases hv2 : (trimString clubData.description == "") = true
      · have happ : applyOp db (.create ownerUid clubData clubId now) = db := by
          simp [applyOp, createClub, hv1, hv2]
        rw [happ]; exact h
      · obtain ⟨hcnt, hact, hnd⟩ := h
        have hanyC : db.clubs.any (isClubDoc clubId) = false :=
          List.any_eq_false.mpr (fun c hc => by
            simp [isClubDoc, beq_eq_false_iff_ne.mpr (hfc c hc)])
        have hanyM : db.clubMembers.any (isMemberDoc clubId ownerUid) = false :=
          List.any_eq_false.mpr (fun mm hmm => by
            simp [isMemberDoc, beq_eq_false_iff_ne.mpr (hfm mm hmm)])
        have happ : applyOp db (.create ownerUid clubData clubId now) =
            { db with
                clubs := db.clubs ++
                  [{ clubId := clubId
                     clubName := trimString clubData.clubName
                     description := trimString clubData.description
                     ownerUid := ownerUid
                     createdAt := now
                     updatedAt := now
                     status := .active
                     settings := mergeSettings DEFAULT_CLUB_SETTINGS clubData.settings
                     memberCount := 1
                     maxMembers := clubData.maxMembers
                     tags := clubData.tags
                     isPublic := clubData.isPublic
                     inviteCode := none }]
                clubMembers := db.clubMembers ++
                  [{ clubId := clubId, uid := ownerUid, role := .owner
                     joinedAt := now, status := .active, lastActivityAt := now
                     permissions := DEFAULT_PERMISSIONS .owner }]
                clubStats := setDoc (isStatsDoc clubId)
                  { clubId := clubId, totalMembers := 1, activeMembers := 1
                    totalEvents := 0, upcomingEvents := 0, totalPosts := 0
                    lastActivityAt := now, updatedAt := now } db.clubStats } := by
          simp only [applyOp, createClub]
          rw [if_neg hv1, if_neg hv2,
            setDoc_of_not_any hanyC, setDoc_of_not_any hanyM]
        rw [happ]
        refine ⟨?_, ?_, ?_⟩
        · intro c' hc'
          have hc2 : c' ∈ db.clubs ++
              [{ clubId := clubId
                 clubName := trimString clubData.clubName
                 description := trimString clubData.description
                 ownerUid := ownerUid
                 createdAt := now
                 updatedAt := now
                 status := .active
                 settings := mergeSettings DEFAULT_CLUB_SETTINGS clubData.settings
                 memberCount := 1
                 maxMembers := clubData.maxMembers
                 tags := clubData.tags
                 isPublic := clubData.isPublic
                 inviteCode := none }] := hc'
          show c'.memberCount = (((db.clubMembers ++
              [({ clubId := clubId, uid := ownerUid, role := .owner
                  joinedAt := now, status := .active, lastActivityAt := now
                  permissions := DEFAULT_PERMISSIONS .owner } : ClubMember)]).filter
            (fun mm => mm.clubId == c'.clubId &&
              mm.status == MemberStatus.active)).length : Int)
          rcases List.mem_append.mp hc2 with hold | hnew
          · have hne := hfc c' hold
            rw [length_filter_append_nomatch _ _ _
              (by simp [beq_eq_false_iff_ne.mpr (Ne.symm hne)])]
            simpa [activeMemberCount] using hcnt c' hold
          · rw [List.mem_singleton.mp hnew]
            rw [length_filter_append_match _ _ _ (by simp)]
            rw [List.filter_eq_nil_iff.mpr (fun mm hmm => by
              simp [beq_eq_false_iff_ne.mpr (hfm mm hmm)])]
            simp
        · intro m' hm'
          have hm2 : m' ∈ db.clubMembers ++
              [{ clubId := clubId, uid := ownerUid, role := .owner
                 joinedAt := now, status := .active, lastActivityAt := now
                 permissions := DEFAULT_PERMISSIONS .owner }] := hm'
          rcases List.mem_append.mp hm2 with hold | hnew
          · exact hact m' hold
          · rw [List.mem_singleton.mp hnew]
        · show ((db.clubs ++
              [({ clubId := clubId
                  clubName := trimString clubData.clubName
                  description := trimString clubData.description
                  ownerUid := ownerUid
                  createdAt := now
                  updatedAt := now
                  status := .active
                  settings := mergeSettings DEFAULT_CLUB_SETTINGS clubData.settings
                  memberCount := 1
                  maxMembers := clubData.maxMembers
                  tags := clubData.tags
                  isPublic := clubData.isPublic
                  inviteCode := none } : Club)]).map Club.clubId).Nodup
          rw [List.map_append]
          refine List.nodup_append.mpr ⟨hnd, by simp, ?_⟩
          intro y hy hy2
          obtain ⟨c, hc, rfl⟩ := List.mem_map.mp hy
          simp only [List.map_cons, List.map_nil, List.mem_singleton] at hy2
          exact hfc c hc hy2
  | join clubId uid role now =>
    cases hG : getClub db clubId with
    | none =>
      have htry : joinClubTry db clubId uid role now = .error .clubNotFound := by
        simp [joinClubTry, hG]
      have happ : applyOp db (.join clubId uid role now) = db := by
        simp [applyOp, joinClub, maskError, htry]
      rw [happ]; exact h
    | some club =>
      by_cases hfull : clubIsFull club = true
      · have htry : joinClubTry db clubId uid role now = .error .clubIsFull := by
          simp [joinClubTry, hG, hfull]
        have happ : applyOp db (.join clubId uid role now) = db := by
          simp [applyOp, joinClub, maskError, htry]
        rw [happ]; exact h
      · by_cases hguard : (db.clubs.any (isClubDoc clubId) &&
            db.clubStats.any (isStatsDoc clubId)) = true
        · obtain ⟨hcnt, hact, hnd⟩ := h
          have htry : joinClubTry db clubId uid role now =
              .ok { db with
                clubMembers := setDoc (isMemberDoc clubId uid)
                  { clubId := clubId, uid := uid, role := role, joinedAt := now
                    status := .active, lastActivityAt := now
                    permissions := DEFAULT_PERMISSIONS role } db.clubMembers
                clubs := updateFirst (isClubDoc clubId)
                  (fun c => { c with memberCount := c.memberCount + 1, updatedAt := now })
                  db.clubs
                clubStats := updateFirst (isStatsDoc clubId)
                  (fun s => { s with
                      totalMembers := s.totalMembers + 1
                      activeMembers := s.activeMembers + 1
                      lastActivityAt := now
                      updatedAt := now })
                  db.clubStats } := by
            simp only [joinClubTry, hG]
            rw [if_neg hfull, if_pos hguard]
          have happ : applyOp db (.join clubId uid role now) =
              { db with
                clubMembers := setDoc (isMemberDoc clubId uid)
                  { clubId := clubId, uid := uid, role := role, joinedAt := now
                    status := .active, lastActivityAt := now
                    permissions := DEFAULT_PERMISSIONS role } db.clubMembers
                clubs := updateFirst (isClubDoc clubId)
                  (fun c => { c with memberCount := c.memberCount + 1, updatedAt := now })
                  db.clubs
                clubStats := updateFirst (isStatsDoc clubId)
                  (fun s => { s with
                      totalMembers := s.totalMembers + 1
                      activeMembers := s.activeMembers + 1
                      lastActivityAt := now
                      updatedAt := now })
                  db.clubStats } := by
            simp [applyOp, joinClub, maskError, htry]
          rw [happ]
          have hanyM : db.clubMembers.any (isMemberDoc clubId uid) = false :=
            List.any_eq_false.mpr (List.find?_eq_none.mp hf)
          have hset : setDoc (isMemberDoc clubId uid)
              { clubId := clubId, uid := uid, role := role, joinedAt := now
                status := .active, lastActivityAt := now
                permissions := DEFAULT_PERMISSIONS role } db.clubMembers =
              db.clubMembers ++
                [{ clubId := clubId, uid := uid, role := role, joinedAt := now
                   status := .active, lastActivityAt := now
                   permissions := DEFAULT_PERMISSIONS role }] :=
            setDoc_of_not_any hanyM
          have hanyC : db.clubs.any (isClubDoc clubId) = true := by
            have hparts : db.clubs.any (isClubDoc clubId) = true ∧
                db.clubStats.any (isStatsDoc clubId) = true := by
              simpa using hguard
            exact hparts.1
          obtain ⟨a, x, b, hl, hx, ha⟩ := exists_decomp_of_any hanyC
          have hxclub : x.clubId = clubId := eq_of_beq hx
          have hupd : updateFirst (isClubDoc clubId)
              (fun c => { c with memberCount := c.memberCount + 1, updatedAt := now })
              db.clubs =
              a ++ { x with memberCount := x.memberCount + 1, updatedAt := now } :: b := by
            rw [hl]; exact updateFirst_append ha hx
          have hne_ab : ∀ y ∈ a ++ b, y.clubId ≠ clubId := by
            intro y hy
            rw [← hxclub]
            exact clubId_ne_of_decomp (hl ▸ hnd) y hy
          refine ⟨?_, ?_, ?_⟩
          · intro c' hc'
            have hc2 : c' ∈ updateFirst (isClubDoc clubId)
                (fun c => { c with memberCount := c.memberCount + 1, updatedAt := now })
                db.clubs := hc'
            rw [hupd] at hc2
            show c'.memberCount = (((setDoc (isMemberDoc clubId uid)
                { clubId := clubId, uid := uid, role := role, joinedAt := now
                  status := .active, lastActivityAt := now
                  permissions := DEFAULT_PERMISSIONS role } db.clubMembers).filter
              (fun mm => mm.clubId == c'.clubId &&
                mm.status == MemberStatus.active)).length : Int)
            rw [hset]
            rcases List.mem_append.mp hc2 with hA | hB
            · have hyne := hne_ab c' (List.mem_append.mpr (Or.inl hA))
              have hmem : c' ∈ db.clubs := by
                rw [hl]; exact List.mem_append.mpr (Or.inl hA)
              rw [length_filter_append_nomatch _ _ _
                (by simp [beq_eq_false_iff_ne.mpr (Ne.symm hyne)])]
              simpa [activeMemberCount] using hcnt c' hmem
            · rcases List.mem_cons.mp hB with rfl | hbb
              · have hmemx : x ∈ db.clubs := by
                  rw [hl]
                  exact List.mem_append.mpr (Or.inr (List.mem_cons_self _ _))
                have hold : x.memberCount = ((db.clubMembers.filter
                    (fun mm => mm.clubId == clubId &&
                      mm.status == MemberStatus.active)).length : Int) := by
                  have := hcnt x hmemx
                  rw [hxclub] at this
                  simpa [activeMemberCount] using this
                show x.memberCount + 1 = (((db.clubMembers ++
                    [({ clubId := clubId, uid := uid, role := role, joinedAt := now
                        status := .active, lastActivityAt := now
                        permissions := DEFAULT_PERMISSIONS role } : ClubMember)]).filter
                  (fun mm => mm.clubId == x.clubId &&
                    mm.status == MemberStatus.active)).length : Int)
                rw [hxclub]
                rw [length_filter_append_match _ _ _ (by simp)]
                rw [hold]
                push_cast
                ring
              · have hyne := hne_ab c' (List.mem_append.mpr (Or.inr hbb))
                have hmem : c' ∈ db.clubs := by
                  rw [hl]
                  exact List.mem_append.mpr (Or.inr (List.mem_cons_of_mem _ hbb))
                rw [length_filter_append_nomatch _ _ _
                  (by simp [beq_eq_false_iff_ne.mpr (Ne.symm hyne)])]
                simpa [activeMemberCount] using hcnt c' hmem
          · intro m' hm'
            have hm2 : m' ∈ db.clubMembers ++
                [{ clubId := clubId, uid := uid, role := role, joinedAt := now
                   status := .active, lastActivityAt := now
                   permissions := DEFAULT_PERMISSIONS role }] := by
              have : m' ∈ setDoc (isMemberDoc clubId uid)
                  { clubId := clubId, uid := uid, role := role, joinedAt := now
                    status := .active, lastActivityAt := now
                    permissions := DEFAULT_PERMISSIONS role } db.clubMembers := hm'
              rwa [hset] at this
            rcases List.mem_append.mp hm2 with hold | hnew
            · exact hact m' hold
            · rw [List.mem_singleton.mp hnew]
          · show ((updateFirst (isClubDoc clubId)
                (fun c => { c with memberCount := c.memberCount + 1, updatedAt := now })
                db.clubs).map Club.clubId).Nodup
            rw [map_updateFirst (isClubDoc clubId) Club.clubId
              (fun c => { c with memberCount := c.memberCount + 1, updatedAt := now })
              (fun c => rfl) db.clubs]
            exact hnd
        · have htry : joinClubTry db clubId uid role now = .error .updateFailed := by
            simp only [joinClubTry, hG]
            rw [if_neg hfull, if_neg hguard]
          have happ : applyOp db (.join clubId uid role now) = db := by
            simp [applyOp, joinClub, maskError, htry]
          rw [happ]; exact h
  | leave clubId uid now =>
    cases hm : getMember db clubId uid with
    | none =>
      have htry : leaveClubTry db clubId uid now = .error .membershipNotFound := by
        simp [leaveClubTry, hm]
      have happ : applyOp db (.leave clubId uid now) = db := by
        simp [applyOp, leaveClub, maskError, htry]
      rw [happ]; exact h
    | some m =>
      by_cases hrole : m.role = .owner
      · have htry : leaveClubTry db clubId uid now = .error .ownerCannotLeave := by
          simp [leaveClubTry, hm, hrole]
        have happ : applyOp db (.leave clubId uid now) = db := by
          simp [applyOp, leaveClub, maskError, htry]
        rw [happ]; exact h
      · by_cases hguard : (db.clubs.any (isClubDoc clubId) &&
            db.clubStats.any (isStatsDoc clubId)) = true
        · have hanyC : db.clubs.any (isClubDoc clubId) = true := by
            have hparts : db.clubs.any (isClubDoc clubId) = true ∧
                db.clubStats.any (isStatsDoc clubId) = true := by
              simpa using hguard
            exact hparts.1
          have htry : leaveClubTry db clubId uid now =
              .ok { db with
                clubMembers := eraseFirst (isMemberDoc clubId uid) db.clubMembers
                clubs := updateFirst (isClubDoc clubId)
                  (fun c => { c with memberCount := c.memberCount - 1, updatedAt := now })
                  db.clubs
                clubStats := updateFirst (isStatsDoc clubId)
                  (fun s => { s with
                      totalMembers := s.totalMembers - 1
                      activeMembers := s.activeMembers - 1
                      lastActivityAt := now
                      updatedAt := now })
                  db.clubStats } := by
            simp only [leaveClubTry, hm]
            rw [if_neg hrole, if_pos hguard]
          have happ : applyOp db (.leave clubId uid now) =
              { db with
                clubMembers := eraseFirst (isMemberDoc clubId uid) db.clubMembers
                clubs := updateFirst (isClubDoc clubId)
                  (fun c => { c with memberCount := c.memberCount - 1, updatedAt := now })
                  db.clubs
                clubStats := updateFirst (isStatsDoc clubId)
                  (fun s => { s with
                      totalMembers := s.totalMembers - 1
                      activeMembers := s.activeMembers - 1
                      lastActivityAt := now
                      updatedAt := now })
                  db.clubStats } := by
            simp [applyOp, leaveClub, maskError, htry]
          rw [happ]
          exact inv_erase_dec db clubId uid now m hm hanyC h
        · have htry : leaveClubTry db clubId uid now = .error .updateFailed := by
            simp only [leaveClubTry, hm]
            rw [if_neg hrole, if_neg hguard]
          have happ : applyOp db (.leave clubId uid now) = db := by
            simp [applyOp, leaveClub, maskError, htry]
          rw [happ]; exact h
  | remove clubId memberUid adminUid now =>
    by_cases h1 : ¬(getUserClubRole db clubId adminUid = some .owner ∨
        getUserClubRole db clubId adminUid = some .organizer)
    · have hrm : removeMember db clubId memberUid adminUid now =
          .error .insufficientPermissions := by
        simp only [removeMember]
        rw [if_pos h1]
      have happ : applyOp db (.remove clubId memberUid adminUid now) = db := by
        simp [applyOp, hrm]
      rw [happ]; exact h
    · by_cases h2 : getUserClubRole db clubId memberUid = some .owner
      · have hrm : removeMember db clubId memberUid adminUid now =
            .error .cannotRemoveOwner := by
          simp only [removeMember]
          rw [if_neg h1, if_pos h2]
        have happ : applyOp db (.remove clubId memberUid adminUid now) = db := by
          simp [applyOp, hrm]
        rw [happ]; exact h
      · by_cases h3 : (memberUid == adminUid) = true
        · have hrm : removeMember db clubId memberUid adminUid now =
              .error .cannotRemoveSelf := by
            simp only [removeMember]
            rw [if_neg h1, if_neg h2, if_pos h3]
          have happ : applyOp db (.remove clubId memberUid adminUid now) = db := by
            simp [applyOp, hrm]
          rw [happ]; exact h
        · cases hm : getMember db clubId memberUid with
          | none =>
            have hrm : removeMember db clubId memberUid adminUid now =
                .error .memberNotFound := by
              simp only [removeMember]
              rw [if_neg h1, if_neg h2, if_neg h3]
              simp only [hm]
            have happ : applyOp db (.remove clubId memberUid adminUid now) = db := by
              simp [applyOp, hrm]
            rw [happ]; exact h
          | some m =>
            by_cases h4 : (db.clubs.any (isClubDoc clubId) &&
                db.clubStats.any (isStatsDoc clubId)) = true
            · have hanyC : db.clubs.any (isClubDoc clubId) = true := by
                have hparts : db.clubs.any (isClubDoc clubId) = true ∧
                    db.clubStats.any (isStatsDoc clubId) = true := by
                  simpa using h4
                exact hparts.1
              have hrm : removeMember db clubId memberUid adminUid now =
                  .ok { db with
                    clubMembers := eraseFirst (isMemberDoc clubId memberUid)
                      db.clubMembers
                    clubs := updateFirst (isClubDoc clubId)
                      (fun c => { c with
                          memberCount := c.memberCount - 1, updatedAt := now })
                      db.clubs
                    clubStats := updateFirst (isStatsDoc clubId)
                      (fun s => { s with
                          totalMembers := s.totalMembers - 1
                          activeMembers := s.activeMembers - 1
                          lastActivityAt := now
                          updatedAt := now })
                      db.clubStats } := by
                simp only [removeMember]
                rw [if_neg h1, if_neg h2, if_neg h3]
                simp only [hm]
                rw [if_pos h4]
              have happ : applyOp db (.remove clubId memberUid adminUid now) =
                  { db with
                    clubMembers := eraseFirst (isMemberDoc clubId memberUid)
                      db.clubMembers
                    clubs := updateFirst (isClubDoc clubId)
                      (fun c => { c with
                          memberCount := c.memberCount - 1, updatedAt := now })
                      db.clubs
                    clubStats := updateFirst (isStatsDoc clubId)
                      (fun s => { s with
                          totalMembers := s.totalMembers - 1
                          activeMembers := s.activeMembers - 1
                          lastActivityAt := now
                          updatedAt := now })
                      db.clubStats } := by
                simp [applyOp, hrm]
              rw [happ]
              exact inv_erase_dec db clubId memberUid now m hm hanyC h
            · have hrm : removeMember db clubId memberUid adminUid now =
                  .error .updateFailed := by
                simp only [removeMember]
                rw [if_neg h1, if_neg h2, if_neg h3]
                simp only [hm]
                rw [if_neg h4]
              have happ : applyOp db (.remove clubId memberUid adminUid now) = db := by
                simp [applyOp, hrm]
              rw [happ]; exact h

/-- C1, witness: the invariant holds for the freshly created club and is
preserved by the (fresh) join of `A`. -/
theorem C1_amended_witness :
    MembershipInv dbOpen ∧ FreshOp dbOpen (.join "c1" "A" .member 1) ∧
    MembershipInv (applyOp dbOpen (.join "c1" "A" .member 1)) := by
  have h1 : MembershipInv dbOpen := by
    simp only [MembershipInv, MemberCountInv, AllMembersActive, ClubIdsNodup]
    decide
  have h2 : FreshOp dbOpen (.join "c1" "A" .member 1) := by
    simp only [FreshOp]
    decide
  exact ⟨h1, h2, C1_amended_memberCount_invariant dbOpen (.join "c1" "A" .member 1) h1 h2⟩

/-- C6.  `SetRSVP(going)` twice in a row is idempotent: both calls
succeed, the second updates the document the first wrote (no duplicate),
so exactly one RSVP document exists for the `(eventId, uid)` pair
afterwards — and after the second call the stored `currentAttendees`
equals the `going` count of the final RSVP set, which counts the actor
exactly once. -/
theorem C6_setRSVP_idempotent (db : DB) (eventId uid : String) (now1 now2 : Nat)
    (hvalid : validRSVPInput eventId uid = true)
    (hevent : db.events.any (isEventDoc eventId) = true)
    (hpair : pairCount db eventId uid ≤ 1) :
    (∃ r, updateRSVP db eventId uid .going now1 =
      .ok (applyRSVP db eventId uid .going now1, r)) ∧
    (∃ r, updateRSVP (applyRSVP db eventId uid .going now1) eventId uid .going now2 =
      .ok (applyRSVP (applyRSVP db eventId uid .going now1) eventId uid .going now2, r)) ∧
    pairCount (applyRSVP (applyRSVP db eventId uid .going now1) eventId uid .going now2)
      eventId uid = 1 ∧
    (getEvent (applyRSVP (applyRSVP db eventId uid .going now1) eventId uid .going now2)
        eventId).map Event.currentAttendees =
      some (goingCount
        (applyRSVP (applyRSVP db eventId uid .going now1) eventId uid .going now2)
        eventId : Int) := by
  obtain ⟨r1, hr1⟩ := updateRSVP_eq_ok db eventId uid .going now1 hvalid hevent
  have hdb1 : applyRSVP db eventId uid .going now1 =
      { db with
          rsvps := upsertRSVP db.rsvps eventId uid .going now1
          events := updateFirst (isEventDoc eventId)
            (fun ev => { ev with
                currentAttendees := (attendeeCountValue db eventId : Int)
                updatedAt := now1 })
            db.events } :=
    applyRSVP_eq_of_ok hr1
  have hrs1 : (applyRSVP db eventId uid .going now1).rsvps =
      upsertRSVP db.rsvps eventId uid .going now1 := by rw [hdb1]
  have hevs1 : (applyRSVP db eventId uid .going now1).events =
      updateFirst (isEventDoc eventId)
        (fun ev => { ev with
            currentAttendees := (attendeeCountValue db eventId : Int)
            updatedAt := now1 })
        db.events := by rw [hdb1]
  have hev1 : (applyRSVP db eventId uid .going now1).events.any (isEventDoc eventId) =
      true := by
    rw [hevs1]
    exact (any_updateFirst (isEventDoc eventId)
      (fun ev : Event => { ev with
          currentAttendees := (attendeeCountValue db eventId : Int)
          updatedAt := now1 })
      (fun x => rfl) db.events).trans hevent
  obtain ⟨r2, hr2⟩ := updateRSVP_eq_ok (applyRSVP db eventId uid .going now1)
    eventId uid .going now2 hvalid hev1
  have hdb2 : applyRSVP (applyRSVP db eventId uid .going now1) eventId uid .going now2 =
      { (applyRSVP db eventId uid .going now1) with
          rsvps := upsertRSVP (applyRSVP db eventId uid .going now1).rsvps
            eventId uid .going now2
          events := updateFirst (isEventDoc eventId)
            (fun ev => { ev with
                currentAttendees :=
                  (attendeeCountValue (applyRSVP db eventId uid .going now1) eventId : Int)
                updatedAt := now2 })
            (applyRSVP db eventId uid .going now1).events } :=
    applyRSVP_eq_of_ok hr2
  have hpair1 : ((applyRSVP db eventId uid .going now1).rsvps.filter
      (fun r => r.eventId == eventId && r.uid == uid)).length = 1 := by
    rw [hrs1]
    exact pairCount_upsertRSVP db.rsvps eventId uid .going now1 hpair
  have hne1 : (applyRSVP db eventId uid .going now1).rsvps.filter
      (fun r => r.eventId == eventId && r.uid == uid) ≠ [] := by
    intro hcontra
    rw [hcontra] at hpair1
    simp at hpair1
  obtain ⟨rp, hrp, hrpst⟩ := find?_pair_upsertRSVP db.rsvps eventId uid .going now1
  have hrp1 : (applyRSVP db eventId uid .going now1).rsvps.find?
      (fun r => r.eventId == eventId && r.uid == uid) = some rp := by
    rw [hrs1]; exact hrp
  have hrs2 : (applyRSVP (applyRSVP db eventId uid .going now1)
      eventId uid .going now2).rsvps =
      upsertRSVP (applyRSVP db eventId uid .going now1).rsvps eventId uid .going now2 := by
    rw [hdb2]
  have hevs2 : (applyRSVP (applyRSVP db eventId uid .going now1)
      eventId uid .going now2).events =
      updateFirst (isEventDoc eventId)
        (fun ev => { ev with
            currentAttendees :=
              (attendeeCountValue (applyRSVP db eventId uid .going now1) eventId : Int)
            updatedAt := now2 })
        (applyRSVP db eventId uid .going now1).events := by
    rw [hdb2]
  have hup2 : upsertRSVP (applyRSVP db eventId uid .going now1).rsvps
      eventId uid .going now2 =
      updateFirst (fun r => r.eventId == eventId && r.uid == uid)
        (fun r => { r with status := .going, updatedAt := now2 })
        (applyRSVP db eventId uid .going now1).rsvps :=
    upsertRSVP_existing _ _ _ _ _ hne1
  have hgc : goingCount (applyRSVP (applyRSVP db eventId uid .going now1)
      eventId uid .going now2) eventId =
      goingCount (applyRSVP db eventId uid .going now1) eventId := by
    simp only [goingCount]
    rw [hrs2, hup2, length_filter_updateFirst
      (fun r : RSVP => r.eventId == eventId && r.uid == uid)
      (fun r : RSVP => r.eventId == eventId && r.status == RSVPStatus.going)
      (fun r : RSVP => { r with status := RSVPStatus.going, updatedAt := now2 })
      hrp1 (by simp [hrpst])]
  refine ⟨⟨r1, by rw [hdb1]; exact hr1⟩, ⟨r2, by rw [hdb2]; exact hr2⟩, ?_, ?_⟩
  · simp only [pairCount]
    rw [hrs2, hup2, length_filter_updateFirst
      (fun r : RSVP => r.eventId == eventId && r.uid == uid)
      (fun r : RSVP => r.eventId == eventId && r.uid == uid)
      (fun r : RSVP => { r with status := RSVPStatus.going, updatedAt := now2 })
      hrp1 rfl]
    exact hpair1
  · obtain ⟨ev1, hev1find, _⟩ := find?_eq_some_of_any hev1
    have hgetev2 : getEvent (applyRSVP (applyRSVP db eventId uid .going now1)
        eventId uid .going now2) eventId =
        some { ev1 with
            currentAttendees :=
              (attendeeCountValue (applyRSVP db eventId uid .going now1) eventId : Int)
            updatedAt := now2 } := by
      simp only [getEvent]
      rw [hevs2]
      exact find?_updateFirst_some _ _
        (fun x hx => by simpa [isEventDoc] using hx) hev1find
    rw [hgetev2]
    simp only [Option.map_some']
    rw [attendeeCountValue_eq_goingCount, hgc]

/-- C6, witness: double `going` from `A` on the fresh event `e1`. -/
theorem C6_witness :
    pairCount (applyRSVP (applyRSVP dbEvent "e1" "A" .going 1) "e1" "A" .going 2)
      "e1" "A" = 1 ∧
    (getEvent (applyRSVP (applyRSVP dbEvent "e1" "A" .going 1) "e1" "A" .going 2)
        "e1").map Event.currentAttendees =
      some (goingCount (applyRSVP (applyRSVP dbEvent "e1" "A" .going 1) "e1" "A" .going 2)
        "e1" : Int) := by
  have h := C6_setRSVP_idempotent dbEvent "e1" "A" 1 2 (by decide) (by decide) (by decide)
  exact ⟨h.2.2.1, h.2.2.2⟩

/-- C8.  When a membership document already exists for `(clubId, uid)` and
the club is below capacity, `joinClub` succeeds anyway: `batch.set`
replaces the existing document by a fresh one (the given role, status
`active`, new timestamps, the role's default permission set — the member
list keeps its length), and the club's `memberCount` and the stats'
`totalMembers`/`activeMembers` are still incremented by exactly one even
though no new member was added. -/
theorem C8_join_overwrites_and_increments
    (db : DB) (clubId uid : String) (role : ClubRole) (now : Nat)
    (club : Club) (st : ClubStats) (m0 : ClubMember)
    (hclub : getClub db clubId = some club)
    (hfull : clubIsFull club = false)
    (hstats : getStats db clubId = some st)
    (hmem : getMember db clubId uid = some m0) :
    joinClubTry db clubId uid role now =
      .ok (applyOp db (.join clubId uid role now)) ∧
    getMember (applyOp db (.join clubId uid role now)) clubId uid =
      some { clubId := clubId, uid := uid, role := role, joinedAt := now
             status := .active, lastActivityAt := now
             permissions := DEFAULT_PERMISSIONS role } ∧
    (applyOp db (.join clubId uid role now)).clubMembers.length =
      db.clubMembers.length ∧
    getClub (applyOp db (.join clubId uid role now)) clubId =
      some { club with memberCount := club.memberCount + 1, updatedAt := now } ∧
    getStats (applyOp db (.join clubId uid role now)) clubId =
      some { st with totalMembers := st.totalMembers + 1
                     activeMembers := st.activeMembers + 1
                     lastActivityAt := now, updatedAt := now } := by
  have hanyC : db.clubs.any (isClubDoc clubId) = true := any_of_find?_eq_some hclub
  have hanyS : db.clubStats.any (isStatsDoc clubId) = true := any_of_find?_eq_some hstats
  have hanyM : db.clubMembers.any (isMemberDoc clubId uid) = true :=
    any_of_find?_eq_some hmem
  have hguard : (db.clubs.any (isClubDoc clubId) &&
      db.clubStats.any (isStatsDoc clubId)) = true := by
    rw [hanyC, hanyS]; rfl
  have htry : joinClubTry db clubId uid role now =
      .ok { db with
              clubMembers := setDoc (isMemberDoc clubId uid)
                { clubId := clubId, uid := uid, role := role, joinedAt := now
                  status := .active, lastActivityAt := now
                  permissions := DEFAULT_PERMISSIONS role } db.clubMembers
              clubs := updateFirst (isClubDoc clubId)
                (fun c => { c with memberCount := c.memberCount + 1, updatedAt := now })
                db.clubs
              clubStats := updateFirst (isStatsDoc clubId)
                (fun s => { s with
                    totalMembers := s.totalMembers + 1
                    activeMembers := s.activeMembers + 1
                    lastActivityAt := now
                    updatedAt := now })
                db.clubStats } := by
    simp only [joinClubTry, hclub]
    rw [if_neg (by simp [hfull]), if_pos hguard]
  have happ : applyOp db (.join clubId uid role now) =
      { db with
          clubMembers := setDoc (isMemberDoc clubId uid)
            { clubId := clubId, uid := uid, role := role, joinedAt := now
              status := .active, lastActivityAt := now
              permissions := DEFAULT_PERMISSIONS role } db.clubMembers
          clubs := updateFirst (isClubDoc clubId)
            (fun c => { c with memberCount := c.memberCount + 1, updatedAt := now })
            db.clubs
          clubStats := updateFirst (isStatsDoc clubId)
            (fun s => { s with
                totalMembers := s.totalMembers + 1
                activeMembers := s.activeMembers + 1
                lastActivityAt := now
                updatedAt := now })
            db.clubStats } := by
    simp [applyOp, joinClub, maskError, htry]
  have hsetDoc : setDoc (isMemberDoc clubId uid)
      { clubId := clubId, uid := uid, role := role, joinedAt := now
        status := .active, lastActivityAt := now
        permissions := DEFAULT_PERMISSIONS role } db.clubMembers =
      updateFirst (isMemberDoc clubId uid)
        (fun _ => { clubId := clubId, uid := uid, role := role, joinedAt := now
                    status := .active, lastActivityAt := now
                    permissions := DEFAULT_PERMISSIONS role }) db.clubMembers := by
    simp only [setDoc, hanyM, if_true]
  refine ⟨?_, ?_, ?_, ?_, ?_⟩
  · rw [happ]; exact htry
  · rw [happ]
    simp only [getMember, hsetDoc]
    exact find?_updateFirst_some _ _
      (fun x hx => by simp [isMemberDoc]) hmem
  · rw [happ]
    simp only [hsetDoc]
    exact length_updateFirst _
  · rw [happ]
    simp only [getClub]
    exact find?_updateFirst_some _ _
      (fun c hc => by simpa [isClubDoc] using hc) hclub
  · rw [happ]
    simp only [getStats]
    exact find?_updateFirst_some _ _
      (fun s hs => by simpa [isStatsDoc] using hs) hstats

/-- The club document of `dbOpenA`: two members, no cap. -/
def openClubAfterA : Club := { openClub with memberCount := 2, updatedAt := 1 }

/-- The stats document of `dbOpenA`. -/
def openStatsAfterA : ClubStats :=
  { clubId := "c1", totalMembers := 2, activeMembers := 2, totalEvents := 0
    upcomingEvents := 0, totalPosts := 0, lastActivityAt := 1, updatedAt := 1 }

/-- The membership document of `A` in `dbOpenA`. -/
def memberA : ClubMember :=
  { clubId := "c1", uid := "A", role := .member, joinedAt := 1, status := .active
    lastActivityAt := 1, permissions := DEFAULT_PERMISSIONS .member }

/-- C8, witness: `A` is already an active member of `c1`, and a second
join as `guest` overwrites the document, keeps the member list length, and
pushes `memberCount` from 2 to 3. -/
theorem C8_witness :
    getMember (applyOp dbOpenA (.join "c1" "A" .guest 3)) "c1" "A" =
      some { clubId := "c1", uid := "A", role := .guest, joinedAt := 3
             status := .active, lastActivityAt := 3
             permissions := DEFAULT_PERMISSIONS .guest } ∧
    (applyOp dbOpenA (.join "c1" "A" .guest 3)).clubMembers.length =
      dbOpenA.clubMembers.length ∧
    getClub (applyOp dbOpenA (.join "c1" "A" .guest 3)) "c1" =
      some { openClubAfterA with memberCount := 3, updatedAt := 3 } := by
  have h := C8_join_overwrites_and_increments dbOpenA "c1" "A" .guest 3
    openClubAfterA openStatsAfterA memberA (by decide) (by decide) (by decide) (by decide)
  refine ⟨h.2.1, h.2.2.1, ?_⟩
  rw [h.2.2.2.1]
  decide

end ClubSpace
